import Mathlib

/-!
Shallow embedding of the heuristic scoring and graph-construction engine of the
repository (wallet reputability scoring route, fund-flow-analysis route,
developer-network route, and the Helius API client), together with theorems
settling the frozen claims about it.

Modelling conventions:
* JavaScript numbers are modelled as `ℤ` where the source only ever holds
  integers (lamport amounts, counts) and as `ℚ` where genuine fractions occur
  (ratios, ages in months).  `Math.round` is `jsRound` (round half toward +∞,
  as in JS).  Float literals that are exact in the source (`0.001 * 1e9 =
  1000000`, `0.1 * 1e9 = 100000000`, `10 * 1e9`, …) appear as the integers they
  evaluate to.
* JS `Map` objects (which iterate in insertion order) are modelled as
  association lists that update in place and append fresh keys at the end.
* `Date.now()` and all network fetches are explicit parameters: the clock is a
  `now : ℤ` argument, fetched data arrives as arguments or oracle functions.
* A `try { … } catch` whose body can throw is modelled with `Except`, the
  catch-handler applied to the `.error` case.
-/

namespace Spec2Proof

/-- JS `Math.round`: round half toward positive infinity. -/
def jsRound (q : ℚ) : ℤ := ⌊q + 1/2⌋

/-- JS `String.prototype.includes`: substring containment. -/
def strContains (s pat : String) : Bool := decide (pat.toList <:+: s.toList)

/-- One character of the base58 alphabet `[1-9A-HJ-NP-Za-km-z]`. -/
def isBase58Char (c : Char) : Bool :=
  (('1' ≤ c && c ≤ '9') ||
   ('A' ≤ c && c ≤ 'Z' && c ≠ 'I' && c ≠ 'O') ||
   ('a' ≤ c && c ≤ 'z' && c ≠ 'l'))

/-- The documented address-format check `/^[1-9A-HJ-NP-Za-km-z]{32,44}$/`. -/
def isValidWalletAddress (s : String) : Bool :=
  32 ≤ s.length && s.length ≤ 44 && s.toList.all isBase58Char

/-- JS `Number.prototype.toFixed(1)` on a (nonnegative) rational, modelling
float formatting as exact decimal rounding (ties toward +∞, per the spec of
`toFixed`). -/
def toFixed1 (q : ℚ) : String :=
  let n : ℤ := jsRound (q * 10)
  toString (n / 10) ++ "." ++ toString (n % 10)

/-- The `toFixed(2)` analogue of `toFixed1`. -/
def toFixed2 (q : ℚ) : String :=
  let n : ℤ := jsRound (q * 100)
  toString (n / 100) ++ "." ++ toString (n / 10 % 10) ++ toString (n % 10)

/-! ## Wallet reputability scoring (`app/api/reputability-score/route.ts`, src/unnamed/part_000) -/

namespace Score

/-- Known scam addresses (`SCAM_ADDRESSES`). -/
def SCAM_ADDRESSES : List String :=
  ["9hFtS2YFdEYjLzuM1jMjqTADVPT3R7RLLxd3nJyHzLh1",
   "8JzMwDj9N5LNUKRuCJz2PGwHwwMqZHNBVHLvFVGZnNcJ",
   "7YttLkHDoNj9wyDur5pM1ejNaAvUTZQEUzprmjpeyNX1",
   "ScamProgram111111111111111111111111111111111",
   "FakeToken22222222222222222222222222222222222"]

/-- Source constant `BLACKLISTED_PROGRAMS`. -/
def BLACKLISTED_PROGRAMS : List String :=
  ["ScamProgram111111111111111111111111111111111",
   "FakeToken22222222222222222222222222222222222",
   "MaliciousDEX1111111111111111111111111111111"]

/-- Source constant `LEGITIMATE_PROGRAMS`. -/
def LEGITIMATE_PROGRAMS : List String :=
  ["JUP6LkbZbjS1jKKwapdHNy74zcZ3tLUZoi5QNyVTaV4",
   "9WzDXwBbmkg8ZTbNMqUxvQRAyrZzDsGYdLVL9zYtAWWM",
   "MarBmsSgKXdrN1egZf5sqe1TMai9K1rChYNDJgjq7aD",
   "whirLbMiicVdio4qvUfM5KAg6Ct8VwpYzGff3uctyCc"]

/-- A `nativeTransfers` entry of a Helius transaction. -/
structure NativeTransfer where
  fromUserAccount : String
  toUserAccount : String
  amount : ℤ
deriving DecidableEq, Repr

/-- A `tokenTransfers` entry (only the account fields are read). -/
structure TokenTransfer where
  fromUserAccount : String
  toUserAccount : String
deriving DecidableEq, Repr

/-- An `instructions` entry; `programId` and `data` may be absent. -/
structure Instruction where
  programId : Option String
  data : Option String
deriving DecidableEq, Repr

/-- A Helius enhanced transaction, as read by `analyzeWalletData`. -/
structure HeliusTx where
  timestamp : ℤ
  nativeTransfers : List NativeTransfer
  tokenTransfers : List TokenTransfer
  instructions : List Instruction
deriving DecidableEq, Repr

/-- A token balance entry; only `account.data.parsed.info.state` and
`…delegatedAmount` are read (absent fields are `none`). -/
structure TokenBalance where
  state : Option String
  delegatedAmount : Option ℤ
deriving DecidableEq, Repr

/-- The record produced by `analyzeWalletData`. -/
structure WalletAnalysis where
  flaggedInteractions : ℕ
  blacklistedProgramUsage : ℕ
  legitimateProgramUsage : ℕ
  largeTransfers : ℕ
  totalVolume : ℤ
  counterpartyCount : ℕ
  counterpartyDiversity : ℚ
  walletAgeMonths : ℚ
  transactionCount : ℕ
  recentTransactions : ℕ
  transactionFrequency : ℚ
  stakingTransactions : ℕ
  stakingActivityShare : ℚ
  tokenCount : ℕ
  hasStakedTokens : Bool
  programsUsed : List String
  uniquePrograms : ℕ
deriving DecidableEq, Repr

/-- Insert into a JS `Set` modelled as an insertion-ordered duplicate-free
list. -/
def setAdd (s : List String) (x : String) : List String :=
  if x ∈ s then s else s ++ [x]

/-- Accumulator of the `transactions.forEach` fold in `analyzeWalletData`. -/
structure WalletAccum where
  flagged : ℕ
  blacklisted : ℕ
  legit : ℕ
  large : ℕ
  volume : ℤ
  counterparties : List String
  programs : List String
  staking : ℕ
  oldest : ℤ
deriving Repr

/-- The `Stake11111111111111111111111111111111111111` program id. -/
def stakeProgramId : String := "Stake11111111111111111111111111111111111111"

/-- Whether one instruction counts as staking-related
(`programId === "Stake…" || data.includes("stake") || data.includes("delegate")`). -/
def isStakingInstruction (p : String) (data : Option String) : Bool :=
  p = stakeProgramId ||
    (match data with
     | some d => strContains d "stake" || strContains d "delegate"
     | none => false)

/-- Process one instruction (the body of the `tx.instructions.forEach`). -/
def stepInstruction (acc : WalletAccum) (ins : Instruction) : WalletAccum :=
  match ins.programId with
  | none => acc
  | some p =>
    if p = "" then acc
    else
      { acc with
        programs := setAdd acc.programs p
        blacklisted := acc.blacklisted + (if p ∈ BLACKLISTED_PROGRAMS then 1 else 0)
        legit := acc.legit + (if p ∈ LEGITIMATE_PROGRAMS then 1 else 0)
        staking := acc.staking + (if isStakingInstruction p ins.data then 1 else 0) }

/-- Process one native transfer (the body of the `tx.nativeTransfers.forEach`). -/
def stepNativeTransfer (walletAddress : String) (acc : WalletAccum)
    (t : NativeTransfer) : WalletAccum :=
  let acc :=
    { acc with
      flagged := acc.flagged +
        (if t.fromUserAccount ∈ SCAM_ADDRESSES ∨ t.toUserAccount ∈ SCAM_ADDRESSES
         then 1 else 0) }
  let acc :=
    { acc with
      counterparties :=
        let cs := if t.fromUserAccount ≠ walletAddress
                  then setAdd acc.counterparties t.fromUserAccount
                  else acc.counterparties
        if t.toUserAccount ≠ walletAddress then setAdd cs t.toUserAccount else cs }
  { acc with
    large := acc.large + (if 10000000000 < t.amount then 1 else 0)
    volume := acc.volume + t.amount }

/-- Process one token transfer. -/
def stepTokenTransfer (walletAddress : String) (acc : WalletAccum)
    (t : TokenTransfer) : WalletAccum :=
  { acc with
    counterparties :=
      let cs := if t.fromUserAccount ≠ walletAddress
                then setAdd acc.counterparties t.fromUserAccount
                else acc.counterparties
      if t.toUserAccount ≠ walletAddress then setAdd cs t.toUserAccount else cs }

/-- Process one transaction (the body of the `transactions.forEach`). -/
def stepTx (walletAddress : String) (acc : WalletAccum) (tx : HeliusTx) :
    WalletAccum :=
  let acc := { acc with oldest := min acc.oldest (tx.timestamp * 1000) }
  let acc := tx.nativeTransfers.foldl (stepNativeTransfer walletAddress) acc
  let acc := tx.tokenTransfers.foldl (stepTokenTransfer walletAddress) acc
  tx.instructions.foldl stepInstruction acc

/-- Source `analyzeWalletData(transactions, tokenBalances, accountInfo, walletAddress)`
with the clock `Date.now()` passed explicitly as `now` (milliseconds). -/
def analyzeWalletData (transactions : List HeliusTx)
    (tokenBalances : List TokenBalance) (accountInfo : Option Unit)
    (walletAddress : String) (now : ℤ) : WalletAnalysis :=
  let oneMonthAgo : ℤ := now - 30 * 24 * 60 * 60 * 1000
  let a := transactions.foldl (stepTx walletAddress)
    { flagged := 0, blacklisted := 0, legit := 0, large := 0, volume := 0,
      counterparties := [], programs := [], staking := 0, oldest := now }
  let walletAgeMs : ℤ := now - a.oldest
  let walletAgeMonths : ℚ :=
    if transactions.length > 0
    then max (1/10) ((walletAgeMs : ℚ) / (30 * 24 * 60 * 60 * 1000))
    else 1/10
  let recentTransactions :=
    (transactions.filter (fun tx => oneMonthAgo < tx.timestamp * 1000)).length
  let transactionFrequency : ℚ := (recentTransactions : ℚ) / 30
  let counterpartyDiversity : ℚ :=
    if transactions.length > 0
    then min 1 ((a.counterparties.length : ℚ) /
                 max 1 ((transactions.length : ℚ) * (1/2)))
    else 0
  let stakingActivityShare : ℚ :=
    if transactions.length > 0
    then (a.staking : ℚ) / (transactions.length : ℚ)
    else 0
  let hasStakedTokens :=
    tokenBalances.length > 0 &&
      tokenBalances.any (fun t =>
        t.state = some "staked" || 0 < t.delegatedAmount.getD 0)
  { flaggedInteractions := a.flagged
    blacklistedProgramUsage := a.blacklisted
    legitimateProgramUsage := a.legit
    largeTransfers := a.large
    totalVolume := a.volume
    counterpartyCount := a.counterparties.length
    counterpartyDiversity := counterpartyDiversity
    walletAgeMonths := walletAgeMonths
    transactionCount := transactions.length
    recentTransactions := recentTransactions
    transactionFrequency := transactionFrequency
    stakingTransactions := a.staking
    stakingActivityShare := stakingActivityShare
    tokenCount := tokenBalances.length
    hasStakedTokens := hasStakedTokens
    programsUsed := a.programs
    uniquePrograms := a.programs.length }

/-- A `{name, impact, description, type}` score factor. -/
structure ScoreFactor where
  name : String
  impact : ℤ
  description : String
  type : String
deriving DecidableEq, Repr

/-- Result of `calculateReputabilityScore`. -/
structure ScoreOutput where
  score : ℤ
  factors : List ScoreFactor
deriving DecidableEq, Repr

/-- Source `calculateReputabilityScore(analysis)`. -/
def calculateReputabilityScore (analysis : WalletAnalysis) : ScoreOutput :=
  let flaggedPenalty : ℤ := analysis.flaggedInteractions * 15
  let blacklistedPenalty : ℤ := analysis.blacklistedProgramUsage * 20
  let largeTransferPenalty : ℤ := min ((analysis.largeTransfers : ℤ) * 3) 30
  let diversityBonus : ℤ := jsRound (analysis.counterpartyDiversity * 20)
  let stakingBonus : ℤ := jsRound (analysis.stakingActivityShare * 25)
  let ageBonus : ℤ := min (jsRound (analysis.walletAgeMonths * 2)) 24
  let legitimateBonus : ℤ := min ((analysis.legitimateProgramUsage : ℤ) * 2) 20
  let activityBonus : ℤ := min (jsRound (analysis.transactionFrequency * 5)) 15
  let score : ℚ := 50 - (flaggedPenalty : ℚ) - (blacklistedPenalty : ℚ)
      - (largeTransferPenalty : ℚ) + (diversityBonus : ℚ) + (stakingBonus : ℚ)
      + (ageBonus : ℚ) + (legitimateBonus : ℚ) + (activityBonus : ℚ)
  let factors : List ScoreFactor :=
    [{ name := "Flagged Address Interactions", impact := -flaggedPenalty,
       description := toString analysis.flaggedInteractions ++
         " interactions with known scam/malicious addresses",
       type := if analysis.flaggedInteractions > 0 then "negative" else "positive" },
     { name := "Blacklisted Program Usage", impact := -blacklistedPenalty,
       description := toString analysis.blacklistedProgramUsage ++
         " interactions with blacklisted programs",
       type := if analysis.blacklistedProgramUsage > 0 then "negative" else "positive" },
     { name := "Large Transfer Activity", impact := -largeTransferPenalty,
       description := toString analysis.largeTransfers ++
         " large transfers (>10 SOL) detected",
       type := if analysis.largeTransfers > 5 then "negative" else "neutral" },
     { name := "Counterparty Diversity", impact := diversityBonus,
       description := toString analysis.counterpartyCount ++
         " unique counterparties (" ++ toFixed1 (analysis.counterpartyDiversity * 100)
         ++ "% diversity)",
       type := if analysis.counterpartyDiversity > 3/10 then "positive" else "neutral" },
     { name := "Staking Activity", impact := stakingBonus,
       description := toString analysis.stakingTransactions ++
         " staking transactions (" ++ toFixed1 (analysis.stakingActivityShare * 100)
         ++ "% of activity)",
       type := if analysis.stakingActivityShare > 1/10 then "positive" else "neutral" },
     { name := "Wallet Age", impact := ageBonus,
       description := toFixed1 analysis.walletAgeMonths ++ " months of on-chain history",
       type := if analysis.walletAgeMonths > 3 then "positive" else "neutral" },
     { name := "Legitimate Program Usage", impact := legitimateBonus,
       description := toString analysis.legitimateProgramUsage ++
         " interactions with verified DeFi protocols",
       type := if analysis.legitimateProgramUsage > 0 then "positive" else "neutral" },
     { name := "Transaction Activity", impact := activityBonus,
       description := toFixed2 analysis.transactionFrequency ++
         " transactions per day (recent activity)",
       type := if analysis.transactionFrequency > 1/10 ∧ analysis.transactionFrequency < 10
               then "positive" else "neutral" }]
  { score := max 0 (min 100 (jsRound score)), factors := factors }

/-- The risk-level mapping of the scoring route
(`score >= 80 ? "low" : score >= 60 ? "medium" : "high"`). -/
def riskLevelOf (score : ℤ) : String :=
  if 80 ≤ score then "low" else if 60 ≤ score then "medium" else "high"

/-- Source `generateRecommendations(analysis, score)` (the `score` argument is unused
in the source body as well). -/
def generateRecommendations (analysis : WalletAnalysis) (score : ℤ) : List String :=
  let recommendations : List String :=
    (if analysis.flaggedInteractions > 0 then
      ["Avoid future interactions with flagged or suspicious addresses to improve reputation"]
     else []) ++
    (if analysis.blacklistedProgramUsage > 0 then
      ["Cease using blacklisted programs and stick to verified DeFi protocols"]
     else []) ++
    (if analysis.stakingActivityShare < 1/10 then
      ["Consider staking SOL or tokens to demonstrate long-term commitment to the ecosystem"]
     else []) ++
    (if analysis.counterpartyDiversity < 3/10 then
      ["Diversify transaction counterparties to show legitimate usage patterns"]
     else []) ++
    (if analysis.legitimateProgramUsage < 3 then
      ["Increase usage of verified DeFi protocols like Jupiter, Raydium, or Marinade"]
     else []) ++
    (if analysis.walletAgeMonths < 3 then
      ["Continue building transaction history over time to establish credibility"]
     else []) ++
    (if analysis.largeTransfers > 10 then
      ["Reduce frequency of large transfers to avoid triggering risk algorithms"]
     else [])
  if recommendations.length = 0 then
    ["Maintain current positive behavior patterns and continue regular DeFi participation",
     "Consider increasing staking activity to further improve reputation score"]
  else recommendations

/-- The deterministic part of the scoring route after the fetches: analysis,
score, factors, risk level and recommendations as one tuple. -/
def scorePipeline (transactions : List HeliusTx) (tokenBalances : List TokenBalance)
    (accountInfo : Option Unit) (walletAddress : String) (now : ℤ) :
    ScoreOutput × String × List String :=
  let analysis := analyzeWalletData transactions tokenBalances accountInfo walletAddress now
  let out := calculateReputabilityScore analysis
  (out, riskLevelOf out.score, generateRecommendations analysis out.score)

end Score

/-! ## Fund-flow analysis (`src/app/api/fund-flow-analysis/route.ts`) -/

namespace FundFlow

/-- Direction labels `"incoming" | "outgoing" | "both"`. -/
inductive FundDir where
  | incoming
  | outgoing
  | both
deriving DecidableEq, Repr

/-- A raw RPC transaction as read by `analyzeFundFlow`: `meta.preBalances`,
`meta.postBalances`, `transaction.message.accountKeys` (already projected to
pubkey strings) and the `programId` of each `transaction.message.instructions`
entry (absent ids are `none`). -/
structure RawTx where
  preBalances : List ℤ
  postBalances : List ℤ
  accountKeys : List String
  instructionPrograms : List (Option String)
deriving DecidableEq, Repr

/-- A `getSignaturesForAddress` result entry (`signature`, optional
`blockTime`). -/
structure SigInfo where
  signature : String
  blockTime : Option ℤ
deriving DecidableEq, Repr

/-- The delta `(postBalances[i] || 0) - (preBalances[i] || 0)`. -/
def balanceChange (tx : RawTx) (i : ℕ) : ℤ :=
  tx.postBalances.getD i 0 - tx.preBalances.getD i 0

/-- Source `determineFundFlowType(tx, address)`: first matching instruction decides
(the `address` argument is unused in the source body as well). -/
def determineFundFlowType (tx : RawTx) (address : String) : String :=
  go tx.instructionPrograms
where
  /-- Walk the instruction list as the source's `for` loop does. -/
  go : List (Option String) → String
  | [] => "unknown"
  | pid :: rest =>
    match pid with
    | some p =>
      if p = "11111111111111111111111111111111" then "transfer"
      else if p = "TokenkegQfeZyiNwAJbNbGKPFXCWuBvf9Ss623VQ5DA" then "token_transfer"
      else if p = "9xQeWvG816bUx9EPjHmaT23yvVM2ZWbrrpZb9PusVFin" then "dex_trade"
      else if strContains p "Stake" then "staking"
      else go rest
    | none => go rest

/-- One flow record extracted from one transaction. -/
structure Flow where
  address : String
  amount : ℤ
  type : String
  direction : FundDir
deriving DecidableEq, Repr

/-- Source `analyzeFundFlow(tx, developerAddress).flows`. -/
def analyzeFundFlow (tx : RawTx) (developerAddress : String) : List Flow :=
  match tx.accountKeys.findIdx? (· = developerAddress) with
  | none => []
  | some developerIndex =>
    let developerBalanceChange := balanceChange tx developerIndex
    (List.range tx.accountKeys.length).filterMap fun i =>
      if i = developerIndex then none
      else
        let bc := balanceChange tx i
        if 10000 < |bc| then
          some { address := tx.accountKeys.getD i "",
                 amount := |bc|,
                 type := determineFundFlowType tx (tx.accountKeys.getD i ""),
                 direction := if 0 < developerBalanceChange
                              then FundDir.incoming else FundDir.outgoing }
        else none

/-- Source `classifyFundSource(address, flowType, amount)`. -/
def classifyFundSource (address : String) (flowType : String) (amount : ℤ) : String :=
  let exchanges : List String :=
    ["5Q544fKrFoe6tsEbD7S8EmxGTJYAKtTVhAW5Q5pge4j1",
     "9WzDXwBbmkg8ZTbNMqUxvQRAyrZzDsGYdLVL9zYtAWWM",
     "2ojv9BAiHUrvsm9gxDe7fJSzbNZSJcxZvf8dqmWGHG8S"]
  if address ∈ exchanges then "exchange"
  else if 10000000000 < amount then "whale"
  else if flowType = "dex_trade" then "exchange"
  else if flowType = "staking" then "contract"
  else if flowType = "token_transfer" then "contract"
  else if address.length = 44 ∧ (strContains address "1111" ∨ "So1".isPrefixOf address)
  then "contract"
  else "fund_source"

/-- Source `classifyFlowType(type)`. -/
def classifyFlowType (type : String) : String :=
  if type = "transfer" then "funding"
  else if type = "dex_trade" then "exchange"
  else if type = "token_transfer" then "contract_interaction"
  else if type = "staking" then "contract_interaction"
  else "funding"

/-- Source `assessAddressRisk(address, amount, type)`. -/
def assessAddressRisk (address : String) (amount : ℤ) (type : String) : String :=
  let safeAddresses : List String :=
    ["5Q544fKrFoe6tsEbD7S8EmxGTJYAKtTVhAW5Q5pge4j1",
     "9WzDXwBbmkg8ZTbNMqUxvQRAyrZzDsGYdLVL9zYtAWWM",
     "2ojv9BAiHUrvsm9gxDe7fJSzbNZSJcxZvf8dqmWGHG8S"]
  if address ∈ safeAddresses then "low"
  else if 100000000000 < amount ∧ type = "unknown" then "high"
  else if 10000000000 < amount then "medium"
  else "low"

/-- Source `getAddressLabel(address)`. -/
def getAddressLabel (address : String) : Option String :=
  if address = "5Q544fKrFoe6tsEbD7S8EmxGTJYAKtTVhAW5Q5pge4j1" then some "Binance"
  else if address = "9WzDXwBbmkg8ZTbNMqUxvQRAyrZzDsGYdLVL9zYtAWWM" then some "FTX"
  else if address = "2ojv9BAiHUrvsm9gxDe7fJSzbNZSJcxZvf8dqmWGHG8S" then some "Coinbase"
  else if address = "So11111111111111111111111111111111111111112" then some "Wrapped SOL"
  else if address = "11111111111111111111111111111111" then some "System Program"
  else if address = "9xQeWvG816bUx9EPjHmaT23yvVM2ZWbrrpZb9PusVFin" then some "Serum DEX"
  else if address = "TokenkegQfeZyiNwAJbNbGKPFXCWuBvf9Ss623VQ5DA" then some "Token Program"
  else none

/-- A value of the `fundSources` map. -/
structure SrcRec where
  amount : ℤ
  count : ℕ
  type : String
  lastSeen : ℤ
  direction : FundDir
  riskLevel : String
deriving DecidableEq, Repr

/-- Accumulator of the primary transaction loop: the `fundSources` map (an
insertion-ordered association list, as a JS `Map` iterates) plus the two
running totals. -/
structure AggState where
  fundSources : List (String × SrcRec)
  totalFundsReceived : ℤ
  totalFundsSent : ℤ
deriving Repr

/-- Keys of the `fundSources` map, in insertion order. -/
def aggKeys (st : AggState) : List String := st.fundSources.map Prod.fst

/-- The map-merge step of the `fundFlow.flows.forEach` callback: update the
existing record in place, or append a fresh one (with its risk level assessed
once, at creation time). -/
def applyFlowSources (m : List (String × SrcRec)) (flow : Flow)
    (blockTime : ℤ) : List (String × SrcRec) :=
  if (m.find? (fun p => p.1 = flow.address)).isSome then
    m.map fun p =>
      if p.1 = flow.address then
        (p.1,
         { p.2 with
           amount := p.2.amount + flow.amount
           count := p.2.count + 1
           lastSeen := max p.2.lastSeen blockTime
           direction := if p.2.direction ≠ flow.direction
                        then FundDir.both else p.2.direction })
      else p
  else
    m ++
      [(flow.address,
        { amount := flow.amount, count := 1, type := flow.type,
          lastSeen := blockTime, direction := flow.direction,
          riskLevel := assessAddressRisk flow.address flow.amount flow.type })]

/-- The body of the `fundFlow.flows.forEach` callback: merge one flow into the
map and update the running totals (incoming flows add to `totalFundsReceived`,
all others to `totalFundsSent`).  `blockTime` is `sig.blockTime || 0`. -/
def applyFlow (blockTime : ℤ) (st : AggState) (flow : Flow) : AggState :=
  { fundSources := applyFlowSources st.fundSources flow blockTime
    totalFundsReceived := st.totalFundsReceived +
      (if flow.direction = FundDir.incoming then flow.amount else 0)
    totalFundsSent := st.totalFundsSent +
      (if flow.direction = FundDir.incoming then 0 else flow.amount) }

/-- One iteration of `for (const sig of signatures.slice(0, 100))`: fetch the
transaction (through the `txFetch` oracle; `null`/parse failure is `none` and
is skipped) and fold its flows. -/
def stepSig (developerAddress : String) (txFetch : String → Option RawTx)
    (st : AggState) (sig : SigInfo) : AggState :=
  match txFetch sig.signature with
  | none => st
  | some tx =>
    (analyzeFundFlow tx developerAddress).foldl (applyFlow (sig.blockTime.getD 0)) st

/-- The primary aggregation pass over `signatures.slice(0, 100)`. -/
def processSignatures (developerAddress : String)
    (txFetch : String → Option RawTx) (sigs : List SigInfo) : AggState :=
  (sigs.take 100).foldl (stepSig developerAddress txFetch)
    { fundSources := [], totalFundsReceived := 0, totalFundsSent := 0 }

/-- A node of the emitted graph. -/
structure FundFlowNode where
  id : String
  group : ℤ
  value : ℤ
  label : String
  type : String
  amount : ℤ
  transactionCount : ℕ
  fundDirection : FundDir
  riskLevel : String
deriving DecidableEq, Repr

/-- A link of the emitted graph. -/
structure FundFlowLink where
  source : String
  target : String
  value : ℤ
  amount : ℤ
  type : String
  frequency : ℕ
  direction : String
deriving DecidableEq, Repr

/-- The response shape of `analyzeFundFlows`. -/
structure FundFlowData where
  nodes : List FundFlowNode
  links : List FundFlowLink
  totalFundsReceived : ℤ
  totalFundsSent : ℤ
  fundingSources : ℕ
  riskScore : ℤ
  suspiciousPatterns : List String
deriving DecidableEq, Repr

/-- Materiality test of the node-emission loop:
`data.amount > 0.001 * 1e9 && address !== developerAddress`. -/
def emits (developerAddress : String) (p : String × SrcRec) : Bool :=
  1000000 < p.2.amount && p.1 ≠ developerAddress

/-- The `fundSources.forEach` loop converting map entries into counterparty
nodes and links (`nodeIndex` threads the `group` counter). -/
def buildPrimary (developerAddress : String) (nodeIndex : ℕ) :
    List (String × SrcRec) → List FundFlowNode × List FundFlowLink × ℕ
  | [] => ([], [], 0)
  | (address, data) :: rest =>
    if emits developerAddress (address, data) then
      let nodeType := classifyFundSource address data.type data.amount
      let node : FundFlowNode :=
        { id := address, group := nodeIndex, value := data.count,
          label := (getAddressLabel address).getD nodeType.toUpper,
          type := nodeType, amount := data.amount, transactionCount := data.count,
          fundDirection := data.direction, riskLevel := data.riskLevel }
      let link : FundFlowLink :=
        { source := if data.direction = FundDir.incoming
                    then address else developerAddress,
          target := if data.direction = FundDir.incoming
                    then developerAddress else address,
          value := data.count, amount := data.amount,
          type := classifyFlowType data.type, frequency := data.count,
          direction := if data.direction = FundDir.incoming
                       then "to_developer" else "from_developer" }
      let r := buildPrimary developerAddress (nodeIndex + 1) rest
      (node :: r.1, link :: r.2.1,
        (if data.direction = FundDir.incoming then 1 else 0) + r.2.2)
    else buildPrimary developerAddress nodeIndex rest

/-- Source `detectSuspiciousPatterns(nodes, links, totalReceived, totalSent)`.
The wash-trading test `totalSent > totalReceived * 0.8` is written in the
equivalent integer form `totalReceived * 8 < totalSent * 10`. -/
def detectSuspiciousPatterns (nodes : List FundFlowNode)
    (links : List FundFlowLink) (totalReceived totalSent : ℤ) : List String :=
  let incomingNodes := nodes.filter fun n =>
    n.fundDirection = FundDir.incoming && n.type ≠ "developer"
  let outgoingNodes := nodes.filter fun n =>
    n.fundDirection = FundDir.outgoing && n.type ≠ "developer"
  let commonAddresses := incomingNodes.filter fun inc =>
    outgoingNodes.any fun out => out.id = inc.id
  (if commonAddresses.length > 0 then ["Circular funding detected"] else []) ++
  (if totalReceived * 8 < totalSent * 10 ∧ 5000000000 < totalSent
   then ["Potential wash trading"] else []) ++
  (if (nodes.filter fun n => n.type = "unknown" && 1000000000 < n.amount).length > 3
   then ["Multiple unknown funding sources"] else []) ++
  (if (links.filter fun l => l.frequency > 20).length > 2
   then ["High frequency transactions"] else []) ++
  (if (nodes.filter fun n => n.type = "exchange").length = 0 ∧
      10000000000 < totalReceived
   then ["No exchange funding detected"] else [])

/-- Source `calculateFundFlowRiskScore(nodes, links, totalReceived, totalSent, suspiciousPatterns)`. -/
def calculateFundFlowRiskScore (nodes : List FundFlowNode)
    (links : List FundFlowLink) (totalReceived totalSent : ℤ)
    (suspiciousPatterns : List String) : ℤ :=
  let score : ℤ := 30 + suspiciousPatterns.length * 15
  let exchangeNodes := nodes.filter fun n => n.type = "exchange"
  let score := score +
    (if exchangeNodes.length = 0 ∧ 10000000000 < totalReceived then 20 else 0)
  let score := score + (nodes.filter fun n => n.type = "unknown").length * 5
  let score := score + (nodes.filter fun n => n.riskLevel = "high").length * 10
  let score := score + (if (nodes.filter fun n => n.type = "whale").length > 2 then 10 else 0)
  let score := score - (exchangeNodes.length : ℤ) * 8
  let contractNodes := nodes.filter fun n => n.type = "contract"
  let score := score - (if contractNodes.length > 0 ∧ contractNodes.length < 5 then 5 else 0)
  max 0 (min 100 score)

/-- An aggregated secondary flow (an entry of the array built inside
`getSecondaryFundFlows`). -/
structure SecFlow where
  address : String
  amount : ℤ
  count : ℕ
  type : String
  direction : FundDir
deriving DecidableEq, Repr

/-- Merge one extracted flow into the secondary `flows` array. -/
def applySecFlow (acc : List SecFlow) (flow : Flow) : List SecFlow :=
  if acc.any (fun f => f.address = flow.address) then
    acc.map fun f =>
      if f.address = flow.address then
        { f with amount := f.amount + flow.amount, count := f.count + 1,
                 direction := if f.direction ≠ flow.direction
                              then FundDir.both else f.direction }
      else f
  else
    acc ++ [{ address := flow.address, amount := flow.amount, count := 1,
              type := flow.type, direction := flow.direction }]

/-- Source `getSecondaryFundFlows(address, 5)`, pure in the fetched
signature/transaction pairs supplied by the `secFetch` oracle. -/
def getSecondaryFundFlows (secFetch : String → List (SigInfo × Option RawTx))
    (address : String) : List SecFlow :=
  let flows := ((secFetch address).take 3).foldl
    (fun acc p =>
      match p.2 with
      | none => acc
      | some tx => (analyzeFundFlow tx address).foldl applySecFlow acc)
    []
  ((flows.filter fun f => 100000000 < f.amount).take 2)

/-- The `secondaryFlows.forEach((flow, index) => …)` body: append a node and a
link when the address is new and `index < 2`. -/
def secStep (sourceId : String) (acc : List FundFlowNode × List FundFlowLink) :
    List (ℕ × SecFlow) → List FundFlowNode × List FundFlowLink
  | [] => acc
  | (index, flow) :: rest =>
    if ¬ acc.1.any (fun n => n.id = flow.address) ∧ index < 2 then
      let node : FundFlowNode :=
        { id := flow.address, group := 200 + index, value := flow.count,
          label := (getAddressLabel flow.address).getD "Secondary",
          type := classifyFundSource flow.address flow.type flow.amount,
          amount := flow.amount, transactionCount := flow.count,
          fundDirection := flow.direction,
          riskLevel := assessAddressRisk flow.address flow.amount flow.type }
      let link : FundFlowLink :=
        { source := if flow.direction = FundDir.incoming then flow.address else sourceId,
          target := if flow.direction = FundDir.incoming then sourceId else flow.address,
          value := flow.count, amount := flow.amount, type := "funding",
          frequency := flow.count,
          direction := if flow.direction = FundDir.incoming
                       then "to_developer" else "from_developer" }
      secStep sourceId (acc.1 ++ [node], acc.2 ++ [link]) rest
    else secStep sourceId acc rest

/-- The secondary-connection expansion over the top `majorSources`. -/
def addSecondary (secFetch : String → List (SigInfo × Option RawTx))
    (majorSources : List FundFlowNode)
    (acc : List FundFlowNode × List FundFlowLink) :
    List FundFlowNode × List FundFlowLink :=
  majorSources.foldl
    (fun acc source => secStep source.id acc (getSecondaryFundFlows secFetch source.id).enum)
    acc

/-- The central developer node, with the totals written into it by the
post-aggregation update. -/
def developerNode (developerAddress : String) (totalFundsReceived totalFundsSent : ℤ)
    (sigCount : ℕ) (fundingSources : ℕ) : FundFlowNode :=
  { id := developerAddress, group := 0, value := fundingSources,
    label := "Developer", type := "developer",
    amount := totalFundsReceived + totalFundsSent, transactionCount := sigCount,
    fundDirection := FundDir.both, riskLevel := "medium" }

/-- The primary counterparty nodes, links and `fundingSources` counter built
from the aggregation map. -/
def primaryBuilt (developerAddress : String) (txFetch : String → Option RawTx)
    (sigs : List SigInfo) : List FundFlowNode × List FundFlowLink × ℕ :=
  buildPrimary developerAddress 1
    (processSignatures developerAddress txFetch sigs).fundSources

/-- The node list at pattern-detection time: the (updated) developer node
followed by the counterparty nodes. -/
def primaryNodes (developerAddress : String) (txFetch : String → Option RawTx)
    (sigs : List SigInfo) : List FundFlowNode :=
  developerNode developerAddress
      (processSignatures developerAddress txFetch sigs).totalFundsReceived
      (processSignatures developerAddress txFetch sigs).totalFundsSent
      sigs.length (primaryBuilt developerAddress txFetch sigs).2.2
    :: (primaryBuilt developerAddress txFetch sigs).1

/-- The suspicious patterns, detected before the secondary expansion. -/
def primaryPatterns (developerAddress : String) (txFetch : String → Option RawTx)
    (sigs : List SigInfo) : List String :=
  detectSuspiciousPatterns (primaryNodes developerAddress txFetch sigs)
    (primaryBuilt developerAddress txFetch sigs).2.1
    (processSignatures developerAddress txFetch sigs).totalFundsReceived
    (processSignatures developerAddress txFetch sigs).totalFundsSent

/-- The risk score, computed before the secondary expansion. -/
def primaryRiskScore (developerAddress : String) (txFetch : String → Option RawTx)
    (sigs : List SigInfo) : ℤ :=
  calculateFundFlowRiskScore (primaryNodes developerAddress txFetch sigs)
    (primaryBuilt developerAddress txFetch sigs).2.1
    (processSignatures developerAddress txFetch sigs).totalFundsReceived
    (processSignatures developerAddress txFetch sigs).totalFundsSent
    (primaryPatterns developerAddress txFetch sigs)

/-- The `majorSources` snapshot: the first three non-developer nodes above 1 SOL. -/
def majorSources (developerAddress : String) (txFetch : String → Option RawTx)
    (sigs : List SigInfo) : List FundFlowNode :=
  ((primaryNodes developerAddress txFetch sigs).filter fun n =>
    n.type ≠ "developer" && 1000000000 < n.amount).take 3

/-- The full (pre-cap) node and link lists of the successful path of
`analyzeFundFlows`, after the secondary expansion. -/
def fundFlowFullGraph (developerAddress : String) (txFetch : String → Option RawTx)
    (secFetch : String → List (SigInfo × Option RawTx)) (sigs : List SigInfo) :
    List FundFlowNode × List FundFlowLink :=
  addSecondary secFetch (majorSources developerAddress txFetch sigs)
    (primaryNodes developerAddress txFetch sigs,
     (primaryBuilt developerAddress txFetch sigs).2.1)

/-- The `getSignaturesForAddress` payload: either a signature array or a truthy
non-array `data.result` (on which `signatures.slice` throws). -/
inductive SigFetchResult where
  | ok (sigs : List SigInfo)
  | malformed
deriving Repr

/-- The body of the `try` block of `analyzeFundFlows`: errors on a malformed
signatures payload (the `.slice` call throws), otherwise produces the capped
response. -/
def analyzeFundFlowsBody (developerAddress : String) (sigResult : SigFetchResult)
    (txFetch : String → Option RawTx)
    (secFetch : String → List (SigInfo × Option RawTx)) :
    Except String FundFlowData :=
  match sigResult with
  | SigFetchResult.malformed => Except.error "signatures.slice is not a function"
  | SigFetchResult.ok sigs =>
    Except.ok
      { nodes := (fundFlowFullGraph developerAddress txFetch secFetch sigs).1.take 30
        links := (fundFlowFullGraph developerAddress txFetch secFetch sigs).2.take 50
        totalFundsReceived :=
          (processSignatures developerAddress txFetch sigs).totalFundsReceived
        totalFundsSent :=
          (processSignatures developerAddress txFetch sigs).totalFundsSent
        fundingSources := (primaryBuilt developerAddress txFetch sigs).2.2
        riskScore := primaryRiskScore developerAddress txFetch sigs
        suspiciousPatterns := (primaryPatterns developerAddress txFetch sigs).take 5 }

/-- The minimal data structure returned by the `catch` handler. -/
def minimalFundFlowData (developerAddress : String) : FundFlowData :=
  { nodes := [{ id := developerAddress, group := 0, value := 0,
                label := "Developer", type := "developer", amount := 0,
                transactionCount := 0, fundDirection := FundDir.both,
                riskLevel := "medium" }]
    links := []
    totalFundsReceived := 0
    totalFundsSent := 0
    fundingSources := 0
    riskScore := 50
    suspiciousPatterns := ["Unable to analyze fund flows"] }

/-- Source `analyzeFundFlows(developerAddress)`: the `try` body with its `catch`
fallback. -/
def analyzeFundFlows (developerAddress : String) (sigResult : SigFetchResult)
    (txFetch : String → Option RawTx)
    (secFetch : String → List (SigInfo × Option RawTx)) : FundFlowData :=
  match analyzeFundFlowsBody developerAddress sigResult txFetch secFetch with
  | Except.ok r => r
  | Except.error _ => minimalFundFlowData developerAddress

end FundFlow

/-! ## Developer network (`src/app/api/developer-network/route.ts`, first file of src/unnamed/part_001) -/

namespace DevNet

/-- A raw RPC transaction as read by `analyzeConnectionTransaction`. -/
structure ConnTx where
  preBalances : List ℤ
  postBalances : List ℤ
  accountKeys : List String
deriving DecidableEq, Repr

/-- Source `classifyAddress(address)` of the developer-network route. -/
def classifyAddress (address : String) : String :=
  let exchanges : List String :=
    ["5Q544fKrFoe6tsEbD7S8EmxGTJYAKtTVhAW5Q5pge4j1",
     "9WzDXwBbmkg8ZTbNMqUxvQRAyrZzDsGYdLVL9zYtAWWM",
     "2ojv9BAiHUrvsm9gxDe7fJSzbNZSJcxZvf8dqmWGHG8S"]
  if address ∈ exchanges then "exchange"
  else if address.length = 44 ∧ strContains address "1111" then "contract"
  else if "So1".isPrefixOf address then "contract"
  else if "11111".isPrefixOf address then "contract"
  else "wallet"

/-- Source `getAddressLabel(address)` of the developer-network route. -/
def getAddressLabel (address : String) : Option String :=
  if address = "5Q544fKrFoe6tsEbD7S8EmxGTJYAKtTVhAW5Q5pge4j1" then some "Binance"
  else if address = "9WzDXwBbmkg8ZTbNMqUxvQRAyrZzDsGYdLVL9zYtAWWM" then some "FTX"
  else if address = "2ojv9BAiHUrvsm9gxDe7fJSzbNZSJcxZvf8dqmWGHG8S" then some "Coinbase"
  else if address = "So11111111111111111111111111111111111111112" then some "Wrapped SOL"
  else if address = "11111111111111111111111111111111" then some "System Program"
  else none

/-- Source `analyzeConnectionTransaction(tx, targetAddress)`: the target's absolute
balance change, attributed to the first other account with any balance
change. -/
def analyzeConnectionTransaction (tx : ConnTx) (targetAddress : String) :
    String × ℤ :=
  match tx.accountKeys.findIdx? (· = targetAddress) with
  | none => ("", 0)
  | some targetIndex =>
    let balanceChange :=
      |tx.postBalances.getD targetIndex 0 - tx.preBalances.getD targetIndex 0|
    if 0 < balanceChange then
      match (List.range tx.accountKeys.length).find? (fun i =>
        i ≠ targetIndex ∧
        0 < |tx.preBalances.getD i 0 - tx.postBalances.getD i 0|) with
      | some i => (tx.accountKeys.getD i "", balanceChange)
      | none => ("", 0)
    else ("", 0)

/-- An entry of the `sources` array of `getDeveloperConnections`. -/
structure ConnSource where
  address : String
  amount : ℤ
  transactionCount : ℕ
  type : String
  label : Option String
deriving DecidableEq, Repr

/-- Merge one connection record into the `sources` array. -/
def applyConnection (acc : List ConnSource × ℤ) (info : String × ℤ) :
    List ConnSource × ℤ :=
  if 0 < info.2 then
    let sources :=
      if acc.1.any (fun s => s.address = info.1) then
        acc.1.map fun s =>
          if s.address = info.1 then
            { s with amount := s.amount + info.2,
                     transactionCount := s.transactionCount + 1 }
          else s
      else
        acc.1 ++ [{ address := info.1, amount := info.2, transactionCount := 1,
                    type := classifyAddress info.1, label := getAddressLabel info.1 }]
    (sources, acc.2 + info.2)
  else acc

/-- The `getSignaturesForAddress` payload of this route, as in
`FundFlow.SigFetchResult`: signatures here are bare strings. -/
inductive SigsPayload where
  | ok (sigs : List String)
  | malformed
deriving Repr

/-- Source `getDeveloperConnections(developerAddress)`: folds the first 20 fetched
transactions; any thrown error (e.g. `.slice` on a malformed payload) is
caught inside and yields `{sources: [], totalActivity: 0}`. -/
def getDeveloperConnections (developerAddress : String) (payload : SigsPayload)
    (txFetch : String → Option ConnTx) : List ConnSource × ℤ :=
  match payload with
  | SigsPayload.malformed => ([], 0)
  | SigsPayload.ok sigs =>
    let r := (sigs.take 20).foldl
      (fun acc sig =>
        match txFetch sig with
        | none => acc
        | some tx => applyConnection acc (analyzeConnectionTransaction tx developerAddress))
      ([], 0)
    (r.1.take 10, r.2)

/-- A node of the developer-network graph. -/
structure DeveloperNode where
  id : String
  group : ℤ
  value : ℤ
  label : String
  type : String
  amount : ℤ
deriving DecidableEq, Repr

/-- A link of the developer-network graph. -/
structure DeveloperLink where
  source : String
  target : String
  value : ℤ
  amount : ℤ
  type : String
deriving DecidableEq, Repr

/-- The response shape of `analyzeDeveloperNetwork`. -/
structure DeveloperFlowData where
  nodes : List DeveloperNode
  links : List DeveloperLink
  totalFunding : ℤ
  fundingSources : ℕ
deriving DecidableEq, Repr

/-- Source `analyzeDeveloperNetwork(developerAddress)`: central node first, one node
and one funding link per connection source, then the central node updated with
the totals. -/
def analyzeDeveloperNetwork (developerAddress : String) (payload : SigsPayload)
    (txFetch : String → Option ConnTx) : DeveloperFlowData :=
  let (sources, totalActivity) :=
    getDeveloperConnections developerAddress payload txFetch
  let central : DeveloperNode :=
    { id := developerAddress, group := 0, value := sources.length,
      label := "Developer", type := "developer", amount := totalActivity }
  let sourceNodes := (sources.enum.map fun p =>
    ({ id := p.2.address, group := 1 + p.1, value := p.2.transactionCount,
       label := p.2.label.getD ("Connection " ++ toString (p.1 + 1)),
       type := p.2.type, amount := p.2.amount } : DeveloperNode))
  let links := sources.map fun s =>
    ({ source := s.address, target := developerAddress,
       value := s.transactionCount, amount := s.amount,
       type := "funding" } : DeveloperLink)
  { nodes := central :: sourceNodes
    links := links
    totalFunding := (sources.map (·.amount)).sum
    fundingSources := sources.length }

end DevNet

/-! ## Endpoint validation and the Helius API client (src/unnamed/part_007 and the route handlers) -/

namespace Api

/-- What a route handler does right after parsing the body: reject with a
4xx-style structural error, or proceed into its first upstream call. -/
inductive RouteAction where
  | reject (msg : String)
  | callUpstream (method : String) (address : String)
deriving DecidableEq, Repr

/-- The reputability-score route (src/unnamed/part_000, `POST`): missing or
empty address is rejected, then the format is checked, and only then does the
handler reach its first upstream fetch (`heliusAPI.getTransactionHistory`). -/
def scoreEndpointRoute (walletAddress : Option String) : RouteAction :=
  match walletAddress with
  | none => RouteAction.reject "Wallet address is required"
  | some a =>
    if a = "" then RouteAction.reject "Wallet address is required"
    else if ¬ isValidWalletAddress a then
      RouteAction.reject "Invalid wallet address format"
    else RouteAction.callUpstream "getTransactionHistory" a

/-- The fund-flow-analysis route (`src/app/api/fund-flow-analysis/route.ts`,
`POST`): only a missing/empty address is rejected; any other string reaches
`analyzeFundFlows`, whose first upstream call is `getSignaturesForAddress`
with that address. -/
def fundFlowRoute (developerAddress : Option String) : RouteAction :=
  match developerAddress with
  | none => RouteAction.reject "Developer address is required"
  | some a =>
    if a = "" then RouteAction.reject "Developer address is required"
    else RouteAction.callUpstream "getSignaturesForAddress" a

/-- Source `HeliusAPI.getTransactionHistory(address, limit)` up to its upstream
fetch: the thrown validation error, or the address/limit pair the request is
made with. -/
def getTransactionHistory (address : String) (limit : ℤ) :
    Except String (String × ℤ) :=
  if address = "" ∨ address.trim = "" ∨ ¬ isValidWalletAddress address then
    Except.error "Invalid wallet address format"
  else
    Except.ok (address, min (max 1 limit) 100)

end Api

/-! ## Verification-side definitions -/

/-- First-occurrence deduplication of a list of addresses, skipping those
already `seen`: the key order a JS `Map` produces under an
insert-or-update fold. -/
def firstDedupAux (seen : List String) : List String → List String
  | [] => []
  | a :: rest =>
    if a ∈ seen then firstDedupAux seen rest
    else a :: firstDedupAux (a :: seen) rest

/-- The flattened stream of `(blockTime, flow)` pairs processed by the primary
aggregation pass of the fund-flow analysis. -/
def flowStream (developerAddress : String)
    (txFetch : String → Option FundFlow.RawTx)
    (sigs : List FundFlow.SigInfo) : List (ℤ × FundFlow.Flow) :=
  (sigs.take 100).flatMap fun sig =>
    match txFetch sig.signature with
    | none => []
    | some tx =>
      (FundFlow.analyzeFundFlow tx developerAddress).map
        (fun f => (sig.blockTime.getD 0, f))

/-- Counterparty addresses of the flow stream, in processing order. -/
def flowAddrs (developerAddress : String)
    (txFetch : String → Option FundFlow.RawTx)
    (sigs : List FundFlow.SigInfo) : List String :=
  (flowStream developerAddress txFetch sigs).map (fun p => p.2.address)

/-- The ids of the material aggregated counterparties, in aggregation-map
order (the ids of the primary counterparty nodes). -/
def primaryCounterpartyIds (developerAddress : String)
    (txFetch : String → Option FundFlow.RawTx)
    (sigs : List FundFlow.SigInfo) : List String :=
  (((FundFlow.processSignatures developerAddress txFetch sigs).fundSources.filter
      (FundFlow.emits developerAddress)).map Prod.fst)

/-- Invariant of the secondary expansion: the node list extends `primary` by
fresh ids, node ids stay unique, and every link endpoint is a present node
id. -/
def GoodExt (primary : List FundFlow.FundFlowNode)
    (r : List FundFlow.FundFlowNode × List FundFlow.FundFlowLink) : Prop :=
  (∃ ns, r.1 = primary ++ ns ∧
    ∀ n ∈ ns, n.id ∉ primary.map FundFlow.FundFlowNode.id) ∧
  (r.1.map FundFlow.FundFlowNode.id).Nodup ∧
  (∀ lk ∈ r.2, lk.source ∈ r.1.map FundFlow.FundFlowNode.id ∧
    lk.target ∈ r.1.map FundFlow.FundFlowNode.id)

/-! ## Concrete evaluation inputs -/

/-- A transaction in which the target (index 0) gains 50000 lamports while two
counterparties lose 30000 and 20000 respectively. -/
def demoTx : FundFlow.RawTx :=
  { preBalances := [0, 50000, 20000], postBalances := [50000, 20000, 0],
    accountKeys := ["DEV", "A", "B"], instructionPrograms := [] }

/-- The first flow extracted from `demoTx`. -/
def demoFlowA : FundFlow.Flow :=
  { address := "A", amount := 30000, type := "unknown",
    direction := FundFlow.FundDir.incoming }

/-- The 31 distinct counterparty addresses `C0`, …, `C30`. -/
def manyAddrs : List String := (List.range 31).map (fun i => "C" ++ toString i)

/-- A transaction crediting the developer while 31 counterparties each lose a
material amount; the last one (`C30`) loses by far the most (0.5 SOL). -/
def bigTx : FundFlow.RawTx :=
  { preBalances := 0 :: (List.replicate 30 2000000 ++ [500000000]),
    postBalances := 5 :: List.replicate 31 0,
    accountKeys := "DEV" :: manyAddrs,
    instructionPrograms := [] }

/-- The single fetched signature of the `bigTx` scenario. -/
def bigSig : FundFlow.SigInfo := { signature := "sig1", blockTime := some 100 }

/-- Transaction oracle of the `bigTx` scenario. -/
def bigTxFetch : String → Option FundFlow.RawTx :=
  fun s => if s = "sig1" then some bigTx else none

/-- Secondary-fetch oracle that returns nothing. -/
def noSecFetch : String → List (FundFlow.SigInfo × Option FundFlow.RawTx) :=
  fun _ => []

/-- The capped fund-flow result of the `bigTx` scenario. -/
def bigResult : FundFlow.FundFlowData :=
  FundFlow.analyzeFundFlows "DEV" (FundFlow.SigFetchResult.ok [bigSig])
    bigTxFetch noSecFetch

/-- The pre-cap node list of the `bigTx` scenario. -/
def bigFullNodes : List FundFlow.FundFlowNode :=
  (FundFlow.fundFlowFullGraph "DEV" bigTxFetch noSecFetch [bigSig]).1

/-- The first emitted link of the `bigTx` scenario (counterparty `C0`). -/
def demoLink0 : FundFlow.FundFlowLink :=
  { source := "C0", target := "DEV", value := 1, amount := 2000000,
    type := "funding", frequency := 1, direction := "to_developer" }

/-- A node carrying the address `X` with `incoming` direction but `developer`
type. -/
def devInNode : FundFlow.FundFlowNode :=
  { id := "X", group := 1, value := 1, label := "n1", type := "developer",
    amount := 7000000000, transactionCount := 1,
    fundDirection := FundFlow.FundDir.incoming, riskLevel := "low" }

/-- The same address `X` as an `outgoing`-direction `developer`-type node. -/
def devOutNode : FundFlow.FundFlowNode :=
  { id := "X", group := 2, value := 1, label := "n2", type := "developer",
    amount := 7000000000, transactionCount := 1,
    fundDirection := FundFlow.FundDir.outgoing, riskLevel := "low" }

/-- A transaction list containing one empty transaction with timestamp 1000 s. -/
def demoHTxs : List Score.HeliusTx :=
  [{ timestamp := 1000, nativeTransfers := [], tokenTransfers := [],
     instructions := [] }]

/-- A clock value at which the `demoHTxs` transaction just happened. -/
def nowA : ℤ := 1000000

/-- The same clock 365 days later. -/
def nowB : ℤ := 1000000 + 31536000000

/-- A syntactically invalid wallet address (too short, illegal characters). -/
def badAddr : String := "bad_address!"

/-- The spec's §8 example scenario as a `WalletAnalysis` record: 0 flagged
interactions, 0 blacklisted usage, 5 large transfers, diversity 0.4, staking
ratio 0.2, age 6 months, 4 legitimate-program interactions, frequency 0.5/day
(the remaining fields are not read by the scorer's numeric computation). -/
def exampleAnalysis : Score.WalletAnalysis :=
  { flaggedInteractions := 0, blacklistedProgramUsage := 0,
    legitimateProgramUsage := 4, largeTransfers := 5, totalVolume := 0,
    counterpartyCount := 10, counterpartyDiversity := 2/5, walletAgeMonths := 6,
    transactionCount := 20, recentTransactions := 15, transactionFrequency := 1/2,
    stakingTransactions := 4, stakingActivityShare := 1/5, tokenCount := 0,
    hasStakedTokens := false, programsUsed := [], uniquePrograms := 0 }

/-! ## Theorems -/

/-- The clamped score is nonnegative. -/
theorem clamp_nonneg (x : ℤ) : 0 ≤ max 0 (min 100 x) := le_max_left 0 _

/-- The clamped score is at most 100. -/
theorem clamp_le_hundred (x : ℤ) : max 0 (min 100 x) ≤ 100 :=
  max_le (by norm_num) (min_le_left _ _)

/-- Function `riskLevelOf` returns `low` exactly above the 80 threshold. -/
theorem riskLevelOf_low_iff (s : ℤ) : Score.riskLevelOf s = "low" ↔ 80 ≤ s := by
  unfold Score.riskLevelOf
  split_ifs with h1 h2
  · simpa using h1
  · exact ⟨fun h => absurd h (by decide), fun h => absurd h h1⟩
  · exact ⟨fun h => absurd h (by decide), fun h => absurd h h1⟩

/-- Function `riskLevelOf` returns `medium` exactly on `[60, 80)`. -/
theorem riskLevelOf_medium_iff (s : ℤ) :
    Score.riskLevelOf s = "medium" ↔ 60 ≤ s ∧ s < 80 := by
  unfold Score.riskLevelOf
  split_ifs with h1 h2
  · exact ⟨fun h => absurd h (by decide), fun h => absurd h1 (by omega)⟩
  · exact ⟨fun _ => ⟨h2, by omega⟩, fun _ => rfl⟩
  · exact ⟨fun h => absurd h (by decide), fun h => absurd h.1 h2⟩

/-- Function `riskLevelOf` returns `high` exactly below 60. -/
theorem riskLevelOf_high_iff (s : ℤ) : Score.riskLevelOf s = "high" ↔ s < 60 := by
  unfold Score.riskLevelOf
  split_ifs with h1 h2
  · exact ⟨fun h => absurd h (by decide), fun h => absurd h1 (by omega)⟩
  · exact ⟨fun h => absurd h (by decide), fun h => absurd h2 (by omega)⟩
  · exact ⟨fun _ => by omega, fun _ => rfl⟩

/-- C1: for every input analysis, the reputability score is an integer clamped
into `[0, 100]`, and the route's risk level is `low` exactly when the score is
at least 80, `medium` exactly on `[60, 80)`, and `high` exactly below 60. -/
theorem C1_score_bounds_and_risk_level (a : Score.WalletAnalysis) :
    0 ≤ (Score.calculateReputabilityScore a).score ∧
    (Score.calculateReputabilityScore a).score ≤ 100 ∧
    (Score.riskLevelOf (Score.calculateReputabilityScore a).score = "low" ↔
      80 ≤ (Score.calculateReputabilityScore a).score) ∧
    (Score.riskLevelOf (Score.calculateReputabilityScore a).score = "medium" ↔
      60 ≤ (Score.calculateReputabilityScore a).score ∧
      (Score.calculateReputabilityScore a).score < 80) ∧
    (Score.riskLevelOf (Score.calculateReputabilityScore a).score = "high" ↔
      (Score.calculateReputabilityScore a).score < 60) := by
  refine ⟨?_, ?_, riskLevelOf_low_iff _, riskLevelOf_medium_iff _,
    riskLevelOf_high_iff _⟩
  · exact clamp_nonneg _
  · exact clamp_le_hundred _

/-- C9: on the spec's example scenario the scorer returns exactly 71 with risk
level `medium`. -/
theorem C9_example_scenario :
    (Score.calculateReputabilityScore exampleAnalysis).score = 71 ∧
    Score.riskLevelOf (Score.calculateReputabilityScore exampleAnalysis).score
      = "medium" := by
  have h : (Score.calculateReputabilityScore exampleAnalysis).score = 71 := by
    norm_num [Score.calculateReputabilityScore, exampleAnalysis, jsRound,
      max_def, min_def]
  refine ⟨h, ?_⟩
  rw [h]
  rfl

/-- C6 counterexample: the same transaction list, token balances and account
info scored at two different clock readings produces two different scores
(50 while the transaction is brand new, versus 74 a year later), so the result
is not a pure function of the fetched input alone. -/
theorem C6_counterexample :
    (Score.scorePipeline demoHTxs [] none "W" nowA).1.score = 50 ∧
    (Score.scorePipeline demoHTxs [] none "W" nowB).1.score = 74 ∧
    (Score.scorePipeline demoHTxs [] none "W" nowA).1.score ≠
      (Score.scorePipeline demoHTxs [] none "W" nowB).1.score := by
  have hA : (Score.scorePipeline demoHTxs [] none "W" nowA).1.score = 50 := by
    norm_num [Score.scorePipeline, Score.analyzeWalletData, Score.stepTx,
      Score.calculateReputabilityScore, jsRound, max_def, min_def, demoHTxs,
      nowA, List.filter]
  have hB : (Score.scorePipeline demoHTxs [] none "W" nowB).1.score = 74 := by
    norm_num [Score.scorePipeline, Score.analyzeWalletData, Score.stepTx,
      Score.calculateReputabilityScore, jsRound, max_def, min_def, demoHTxs,
      nowB, List.filter]
  exact ⟨hA, hB, by rw [hA, hB]; decide⟩

/-- C6 amended: the analysis, score, factors, risk level and recommendations
are a deterministic function of the fetched data together with the evaluation
clock `now`; two runs over the same inputs at the same instant agree on all
components. -/
theorem C6_amended_determinism (transactions : List Score.HeliusTx)
    (tokenBalances : List Score.TokenBalance) (accountInfo : Option Unit)
    (walletAddress : String) (now : ℤ) :
    (Score.scorePipeline transactions tokenBalances accountInfo walletAddress now).1
      = (Score.scorePipeline transactions tokenBalances accountInfo walletAddress now).1 ∧
    (Score.scorePipeline transactions tokenBalances accountInfo walletAddress now).2.1
      = (Score.scorePipeline transactions tokenBalances accountInfo walletAddress now).2.1 ∧
    (Score.scorePipeline transactions tokenBalances accountInfo walletAddress now).2.2
      = (Score.scorePipeline transactions tokenBalances accountInfo walletAddress now).2.2 :=
  ⟨rfl, rfl, rfl⟩

/-- C2 counterexample: in `demoTx` the target's own balance delta is +50000,
yet the extractor records 30000 and 20000 for the two counterparties (each
one's own delta), so the recorded amount is not the target's `abs(delta)`
applied uniformly. -/
theorem C2_counterexample :
    (FundFlow.analyzeFundFlow demoTx "DEV").map FundFlow.Flow.amount
      = [30000, 20000] ∧
    FundFlow.balanceChange demoTx 0 = 50000 ∧
    ¬ ∀ f ∈ FundFlow.analyzeFundFlow demoTx "DEV",
        f.amount = |FundFlow.balanceChange demoTx 0| := by
  decide

/-- C2 amended: every flow the extractor records carries the absolute value of
the counterparty's own balance delta (above the 10000-lamport noise
threshold), while the direction label is uniform across the transaction and
determined by the sign of the target's own delta. -/
theorem C2_amended (tx : FundFlow.RawTx) (dev : String) (di : ℕ)
    (hdi : tx.accountKeys.findIdx? (fun k => k = dev) = some di) :
    ∀ f ∈ FundFlow.analyzeFundFlow tx dev,
      f.direction = (if 0 < FundFlow.balanceChange tx di then
        FundFlow.FundDir.incoming else FundFlow.FundDir.outgoing) ∧
      ∃ i, i ≠ di ∧ f.address = tx.accountKeys.getD i "" ∧
        f.amount = |FundFlow.balanceChange tx i| ∧
        10000 < |FundFlow.balanceChange tx i| := by
  intro f hf
  unfold FundFlow.analyzeFundFlow at hf
  rw [hdi] at hf
  simp only [List.mem_filterMap, List.mem_range] at hf
  obtain ⟨i, _, hfi⟩ := hf
  by_cases h1 : i = di
  · simp [h1] at hfi
  · rw [if_neg h1] at hfi
    by_cases h2 : 10000 < |FundFlow.balanceChange tx i|
    · rw [if_pos h2] at hfi
      cases hfi
      exact ⟨rfl, i, h1, rfl, rfl, h2⟩
    · rw [if_neg h2] at hfi
      cases hfi

/-- C2 witness: the amended statement evaluated on `demoTx` at the flow
recorded for counterparty `A`. -/
theorem C2_witness :
    demoFlowA ∈ FundFlow.analyzeFundFlow demoTx "DEV" ∧
    (demoFlowA.direction = (if 0 < FundFlow.balanceChange demoTx 0 then
        FundFlow.FundDir.incoming else FundFlow.FundDir.outgoing) ∧
      ∃ i, i ≠ 0 ∧ demoFlowA.address = demoTx.accountKeys.getD i "" ∧
        demoFlowA.amount = |FundFlow.balanceChange demoTx i| ∧
        10000 < |FundFlow.balanceChange demoTx i|) :=
  ⟨by decide, C2_amended demoTx "DEV" 0 (by decide) demoFlowA (by decide)⟩

/-- C7 counterexample: `bad_address!` fails the documented format check, yet
the fund-flow-analysis endpoint proceeds straight into its first upstream call
(`getSignaturesForAddress`) with that address instead of rejecting it. -/
theorem C7_counterexample :
    isValidWalletAddress badAddr = false ∧
    Api.fundFlowRoute (some badAddr) =
      Api.RouteAction.callUpstream "getSignaturesForAddress" badAddr := by
  decide

/-- C7 amended: the scoring endpoint rejects every invalid-format address
locally before any upstream call, and the Helius client's
`getTransactionHistory` throws its local validation error before fetching;
the fund-flow-analysis endpoint, however, performs no format check (see the
counterexample). -/
theorem C7_amended (a : String) (h : isValidWalletAddress a = false) :
    (∃ msg, Api.scoreEndpointRoute (some a) = Api.RouteAction.reject msg) ∧
    ∀ limit : ℤ, Api.getTransactionHistory a limit =
      Except.error "Invalid wallet address format" := by
  constructor
  · by_cases he : a = ""
    · exact ⟨"Wallet address is required", by simp [Api.scoreEndpointRoute, he]⟩
    · exact ⟨"Invalid wallet address format",
        by simp [Api.scoreEndpointRoute, he, h]⟩
  · intro limit
    unfold Api.getTransactionHistory
    rw [if_pos]
    exact Or.inr (Or.inr (by simp [h]))

/-- C7 witness: the amended statement evaluated at the concrete invalid
address, with the limit the scoring route uses. -/
theorem C7_witness :
    (∃ msg, Api.scoreEndpointRoute (some badAddr) = Api.RouteAction.reject msg) ∧
    Api.getTransactionHistory badAddr 100 =
      Except.error "Invalid wallet address format" :=
  ⟨(C7_amended badAddr (by decide)).1, (C7_amended badAddr (by decide)).2 100⟩

/-- Membership in a conditional singleton list. -/
theorem mem_ite_singleton (c : Prop) [Decidable c] (s x : String) :
    s ∈ (if c then [x] else ([] : List String)) ↔ c ∧ s = x := by
  split_ifs with h <;> simp [h]

/-- The detector reports `Circular funding detected` exactly when some address
occurs both on an `incoming`-direction node and on an `outgoing`-direction
node, in each case with a non-`developer` type. -/
theorem mem_detect_circular_iff (nodes : List FundFlow.FundFlowNode)
    (links : List FundFlow.FundFlowLink) (tR tS : ℤ) :
    "Circular funding detected" ∈
      FundFlow.detectSuspiciousPatterns nodes links tR tS ↔
    ∃ n1 ∈ nodes, ∃ n2 ∈ nodes,
      n1.fundDirection = FundFlow.FundDir.incoming ∧ n1.type ≠ "developer" ∧
      n2.fundDirection = FundFlow.FundDir.outgoing ∧ n2.type ≠ "developer" ∧
      n2.id = n1.id := by
  unfold FundFlow.detectSuspiciousPatterns
  simp only [List.mem_append, mem_ite_singleton]
  constructor
  · rintro ((((⟨hc, _⟩ | ⟨_, hs⟩) | ⟨_, hs⟩) | ⟨_, hs⟩) | ⟨_, hs⟩)
    · obtain ⟨inc, hinc⟩ := List.length_pos_iff_exists_mem.mp hc
      rw [List.mem_filter] at hinc
      obtain ⟨hinc_mem, hinc_any⟩ := hinc
      rw [List.any_eq_true] at hinc_any
      obtain ⟨out, hout_mem, hout_id⟩ := hinc_any
      rw [List.mem_filter] at hinc_mem hout_mem
      simp only [Bool.and_eq_true, decide_eq_true_eq] at hinc_mem hout_mem hout_id
      exact ⟨inc, hinc_mem.1, out, hout_mem.1, hinc_mem.2.1, hinc_mem.2.2,
        hout_mem.2.1, hout_mem.2.2, hout_id⟩
    · exact absurd hs (by decide)
    · exact absurd hs (by decide)
    · exact absurd hs (by decide)
    · exact absurd hs (by decide)
  · rintro ⟨n1, h1, n2, h2, hd1, ht1, hd2, ht2, hid⟩
    refine Or.inl (Or.inl (Or.inl (Or.inl ⟨?_, by trivial⟩)))
    apply List.length_pos_iff_exists_mem.mpr
    refine ⟨n1, ?_⟩
    rw [List.mem_filter]
    refine ⟨?_, ?_⟩
    · rw [List.mem_filter]
      simp only [Bool.and_eq_true, decide_eq_true_eq]
      exact ⟨h1, hd1, ht1⟩
    · rw [List.any_eq_true]
      refine ⟨n2, ?_, by simpa using hid⟩
      rw [List.mem_filter]
      simp only [Bool.and_eq_true, decide_eq_true_eq]
      exact ⟨h2, hd2, ht2⟩

/-- C5 amended: the detector reports circular funding if and only if some
address appears both as an `incoming`-direction node and as an
`outgoing`-direction node among the nodes whose type is not `developer`
(developer-typed nodes are excluded by the check). -/
theorem C5_amended_circular_iff (nodes : List FundFlow.FundFlowNode)
    (links : List FundFlow.FundFlowLink) (tR tS : ℤ) :
    "Circular funding detected" ∈
      FundFlow.detectSuspiciousPatterns nodes links tR tS ↔
    ∃ n1 ∈ nodes, ∃ n2 ∈ nodes,
      n1.fundDirection = FundFlow.FundDir.incoming ∧ n1.type ≠ "developer" ∧
      n2.fundDirection = FundFlow.FundDir.outgoing ∧ n2.type ≠ "developer" ∧
      n2.id = n1.id :=
  mem_detect_circular_iff nodes links tR tS

/-- C5 counterexample: the address `X` appears both as an incoming-direction
node and as an outgoing-direction node, yet — because both carriers are typed
`developer` — the detector does not report circular funding. -/
theorem C5_counterexample :
    devInNode.id = devOutNode.id ∧
    devInNode.fundDirection = FundFlow.FundDir.incoming ∧
    devOutNode.fundDirection = FundFlow.FundDir.outgoing ∧
    "Circular funding detected" ∉
      FundFlow.detectSuspiciousPatterns [devInNode, devOutNode] [] 0 0 := by
  decide

/-- C8: whenever the body of `analyzeFundFlows` throws, the endpoint returns
the minimal degraded structure (developer node only, no links, zero totals,
risk score 50, sentinel pattern), and the developer-network analysis always
returns at least its central node. -/
theorem C8_degraded_results (dev : String) (sigRes : FundFlow.SigFetchResult)
    (txF : String → Option FundFlow.RawTx)
    (secF : String → List (FundFlow.SigInfo × Option FundFlow.RawTx))
    (e : String)
    (h : FundFlow.analyzeFundFlowsBody dev sigRes txF secF = Except.error e) :
    FundFlow.analyzeFundFlows dev sigRes txF secF =
      FundFlow.minimalFundFlowData dev ∧
    (FundFlow.minimalFundFlowData dev).nodes.map FundFlow.FundFlowNode.id = [dev] ∧
    (FundFlow.minimalFundFlowData dev).links = [] ∧
    (FundFlow.minimalFundFlowData dev).totalFundsReceived = 0 ∧
    (FundFlow.minimalFundFlowData dev).totalFundsSent = 0 ∧
    (FundFlow.minimalFundFlowData dev).riskScore = 50 ∧
    (FundFlow.minimalFundFlowData dev).suspiciousPatterns =
      ["Unable to analyze fund flows"] ∧
    ∀ (payload : DevNet.SigsPayload) (txF2 : String → Option DevNet.ConnTx),
      ∃ n ∈ (DevNet.analyzeDeveloperNetwork dev payload txF2).nodes,
        n.id = dev ∧ n.label = "Developer" := by
  refine ⟨?_, rfl, rfl, rfl, rfl, rfl, rfl, ?_⟩
  · unfold FundFlow.analyzeFundFlows
    rw [h]
  · intro payload txF2
    exact ⟨_, List.mem_cons_self _ _, rfl, rfl⟩

/-- C8 witness: the theorem applied to a malformed upstream signatures
payload. -/
theorem C8_witness :
    FundFlow.analyzeFundFlows "DEV" FundFlow.SigFetchResult.malformed
        bigTxFetch noSecFetch = FundFlow.minimalFundFlowData "DEV" ∧
    ∃ n ∈ (DevNet.analyzeDeveloperNetwork "DEV" DevNet.SigsPayload.malformed
        (fun _ => none)).nodes, n.id = "DEV" ∧ n.label = "Developer" :=
  ⟨(C8_degraded_results "DEV" FundFlow.SigFetchResult.malformed bigTxFetch
      noSecFetch "signatures.slice is not a function" rfl).1,
   (C8_degraded_results "DEV" FundFlow.SigFetchResult.malformed bigTxFetch
      noSecFetch "signatures.slice is not a function" rfl).2.2.2.2.2.2.2
      DevNet.SigsPayload.malformed (fun _ => none)⟩

/-- Searching with `find?` on the aggregation map succeeds exactly when the address is a
key. -/
theorem find_isSome_iff_mem (m : List (String × FundFlow.SrcRec)) (a : String) :
    (m.find? (fun p => p.1 = a)).isSome ↔ a ∈ m.map Prod.fst := by
  rw [List.find?_isSome]
  simp only [List.mem_map, decide_eq_true_eq]

/-- The merge step leaves the key list unchanged on an update and appends the
address on a fresh insert. -/
theorem applyFlowSources_keys (m : List (String × FundFlow.SrcRec))
    (fl : FundFlow.Flow) (bt : ℤ) :
    (FundFlow.applyFlowSources m fl bt).map Prod.fst =
      if fl.address ∈ m.map Prod.fst then m.map Prod.fst
      else m.map Prod.fst ++ [fl.address] := by
  unfold FundFlow.applyFlowSources
  by_cases h : fl.address ∈ m.map Prod.fst
  · rw [if_pos ((find_isSome_iff_mem m _).mpr h), if_pos h, List.map_map]
    refine List.map_congr_left ?_
    intro p _
    by_cases hp : p.1 = fl.address <;> simp [hp]
  · rw [if_neg (fun hc => h ((find_isSome_iff_mem m _).mp hc)), if_neg h]
    simp

/-- Function `firstDedupAux` only depends on the membership semantics of `seen`. -/
theorem firstDedupAux_congr : ∀ (l seen1 seen2 : List String),
    (∀ x, x ∈ seen1 ↔ x ∈ seen2) →
    firstDedupAux seen1 l = firstDedupAux seen2 l := by
  intro l
  induction l with
  | nil => intro _ _ _; rfl
  | cons a rest ih =>
    intro s1 s2 h
    simp only [firstDedupAux]
    by_cases ha : a ∈ s1
    · rw [if_pos ha, if_pos ((h a).mp ha), ih s1 s2 h]
    · rw [if_neg ha, if_neg (fun hc => ha ((h a).mpr hc)),
        ih (a :: s1) (a :: s2) (by intro x; simp [h x])]

/-- Elements produced by `firstDedupAux` come from the list and avoid
`seen`. -/
theorem mem_firstDedupAux : ∀ (l seen : List String) (x : String),
    x ∈ firstDedupAux seen l → x ∈ l ∧ x ∉ seen := by
  intro l
  induction l with
  | nil => intro seen x hx; simp [firstDedupAux] at hx
  | cons a rest ih =>
    intro seen x hx
    simp only [firstDedupAux] at hx
    by_cases ha : a ∈ seen
    · rw [if_pos ha] at hx
      obtain ⟨h1, h2⟩ := ih seen x hx
      exact ⟨List.mem_cons_of_mem _ h1, h2⟩
    · rw [if_neg ha] at hx
      rcases List.mem_cons.mp hx with rfl | hx'
      · exact ⟨List.mem_cons_self _ _, ha⟩
      · obtain ⟨h1, h2⟩ := ih (a :: seen) x hx'
        exact ⟨List.mem_cons_of_mem _ h1,
          fun hc => h2 (List.mem_cons_of_mem _ hc)⟩

/-- Function `firstDedupAux` produces no duplicates. -/
theorem nodup_firstDedupAux : ∀ (l seen : List String),
    (firstDedupAux seen l).Nodup := by
  intro l
  induction l with
  | nil => intro seen; simp [firstDedupAux]
  | cons a rest ih =>
    intro seen
    simp only [firstDedupAux]
    split_ifs with ha
    · exact ih seen
    · refine List.nodup_cons.mpr ⟨?_, ih (a :: seen)⟩
      intro hmem
      exact (mem_firstDedupAux rest (a :: seen) a hmem).2 (List.mem_cons_self _ _)

/-- Function `firstDedupAux` lists addresses in order of first occurrence. -/
theorem pairwise_firstDedupAux : ∀ (l seen : List String),
    (firstDedupAux seen l).Pairwise (fun a b => l.indexOf a < l.indexOf b) := by
  intro l
  induction l with
  | nil => intro seen; simp [firstDedupAux]
  | cons a rest ih =>
    intro seen
    simp only [firstDedupAux]
    split_ifs with ha
    · refine List.Pairwise.imp_of_mem ?_ (ih seen)
      intro x y hx hy hlt
      have hxa : x ≠ a := fun he => (mem_firstDedupAux rest seen x hx).2 (he ▸ ha)
      have hya : y ≠ a := fun he => (mem_firstDedupAux rest seen y hy).2 (he ▸ ha)
      rw [List.indexOf_cons_ne _ (Ne.symm hxa), List.indexOf_cons_ne _ (Ne.symm hya)]
      omega
    · refine List.pairwise_cons.mpr ⟨?_, ?_⟩
      · intro b hb
        have hb' := mem_firstDedupAux rest (a :: seen) b hb
        have hba : b ≠ a := fun he => hb'.2 (he ▸ List.mem_cons_self _ _)
        rw [List.indexOf_cons_self, List.indexOf_cons_ne _ (Ne.symm hba)]
        omega
      · refine List.Pairwise.imp_of_mem ?_ (ih (a :: seen))
        intro x y hx hy hlt
        have hxa : x ≠ a :=
          fun he => (mem_firstDedupAux rest _ x hx).2 (he ▸ List.mem_cons_self _ _)
        have hya : y ≠ a :=
          fun he => (mem_firstDedupAux rest _ y hy).2 (he ▸ List.mem_cons_self _ _)
        rw [List.indexOf_cons_ne _ (Ne.symm hxa), List.indexOf_cons_ne _ (Ne.symm hya)]
        omega

/-- Key evolution of the aggregation fold over a flattened flow stream. -/
theorem foldl_applyFlow_keys : ∀ (stream : List (ℤ × FundFlow.Flow))
    (st : FundFlow.AggState),
    FundFlow.aggKeys (stream.foldl (fun s p => FundFlow.applyFlow p.1 s p.2) st) =
      FundFlow.aggKeys st ++
        firstDedupAux (FundFlow.aggKeys st) (stream.map (fun p => p.2.address)) := by
  intro stream
  induction stream with
  | nil => intro st; simp [firstDedupAux]
  | cons hd tl ih =>
    intro st
    rw [List.foldl_cons, ih, List.map_cons]
    simp only [firstDedupAux]
    have hkeys : FundFlow.aggKeys (FundFlow.applyFlow hd.1 st hd.2) =
        if hd.2.address ∈ FundFlow.aggKeys st then FundFlow.aggKeys st
        else FundFlow.aggKeys st ++ [hd.2.address] :=
      applyFlowSources_keys st.fundSources hd.2 hd.1
    by_cases h : hd.2.address ∈ FundFlow.aggKeys st
    · rw [if_pos h] at hkeys
      rw [hkeys, if_pos h]
    · rw [if_neg h] at hkeys
      rw [hkeys, if_neg h,
        firstDedupAux_congr _ (FundFlow.aggKeys st ++ [hd.2.address])
          (hd.2.address :: FundFlow.aggKeys st) (by intro x; simp; tauto),
        List.append_assoc, List.singleton_append]

/-- The per-signature pass equals the fold over the flattened flow stream. -/
theorem processSignatures_eq_foldl (dev : String)
    (txF : String → Option FundFlow.RawTx) (sigs : List FundFlow.SigInfo) :
    FundFlow.processSignatures dev txF sigs =
      (flowStream dev txF sigs).foldl (fun s p => FundFlow.applyFlow p.1 s p.2)
        { fundSources := [], totalFundsReceived := 0, totalFundsSent := 0 } := by
  unfold FundFlow.processSignatures flowStream
  generalize sigs.take 100 = l
  suffices h : ∀ (l : List FundFlow.SigInfo) (st : FundFlow.AggState),
      l.foldl (FundFlow.stepSig dev txF) st =
      (l.flatMap fun sig =>
        match txF sig.signature with
        | none => []
        | some tx =>
          (FundFlow.analyzeFundFlow tx dev).map
            (fun f => (sig.blockTime.getD 0, f))).foldl
        (fun s p => FundFlow.applyFlow p.1 s p.2) st from h l _
  intro l
  induction l with
  | nil => intro st; rfl
  | cons hd tl ih =>
    intro st
    rw [List.foldl_cons, List.flatMap_cons, List.foldl_append, ih]
    congr 1
    unfold FundFlow.stepSig
    cases hcase : txF hd.signature with
    | none => rfl
    | some tx => rw [List.foldl_map]

/-- The aggregation-map keys are the first-occurrence deduplication of the
counterparty addresses in the processed flow stream. -/
theorem processSignatures_keys (dev : String)
    (txF : String → Option FundFlow.RawTx) (sigs : List FundFlow.SigInfo) :
    FundFlow.aggKeys (FundFlow.processSignatures dev txF sigs) =
      firstDedupAux [] (flowAddrs dev txF sigs) := by
  rw [processSignatures_eq_foldl, foldl_applyFlow_keys]
  rfl

/-- The counterparty node ids are exactly the keys of the material map
entries, in map order. -/
theorem buildPrimary_ids (dev : String) : ∀ (l : List (String × FundFlow.SrcRec))
    (idx : ℕ),
    (FundFlow.buildPrimary dev idx l).1.map FundFlow.FundFlowNode.id =
      (l.filter (FundFlow.emits dev)).map Prod.fst := by
  intro l
  induction l with
  | nil => intro idx; rfl
  | cons hd tl ih =>
    intro idx
    obtain ⟨address, data⟩ := hd
    simp only [FundFlow.buildPrimary, List.filter_cons]
    by_cases h : FundFlow.emits dev (address, data)
    · rw [if_pos h, if_pos h]
      simp [ih (idx + 1)]
    · rw [if_neg h, if_neg h]
      exact ih idx

/-- Every primary link's endpoints are the developer or an emitted
counterparty node id. -/
theorem buildPrimary_links (dev : String) : ∀ (l : List (String × FundFlow.SrcRec))
    (idx : ℕ), ∀ lk ∈ (FundFlow.buildPrimary dev idx l).2.1,
    lk.source ∈ dev :: (FundFlow.buildPrimary dev idx l).1.map FundFlow.FundFlowNode.id ∧
    lk.target ∈ dev :: (FundFlow.buildPrimary dev idx l).1.map FundFlow.FundFlowNode.id := by
  have lift : ∀ (x : String) (n : FundFlow.FundFlowNode)
      (ns : List FundFlow.FundFlowNode),
      x ∈ dev :: ns.map FundFlow.FundFlowNode.id →
      x ∈ dev :: (n :: ns).map FundFlow.FundFlowNode.id := by
    intro x n ns hx
    rcases List.mem_cons.mp hx with rfl | hx'
    · exact List.mem_cons_self _ _
    · exact List.mem_cons_of_mem _ (List.mem_cons_of_mem _ hx')
  intro l
  induction l with
  | nil => intro idx lk hlk; simp [FundFlow.buildPrimary] at hlk
  | cons hd tl ih =>
    intro idx lk hlk
    obtain ⟨address, data⟩ := hd
    simp only [FundFlow.buildPrimary] at hlk ⊢
    by_cases h : FundFlow.emits dev (address, data)
    · rw [if_pos h] at hlk ⊢
      rcases List.mem_cons.mp hlk with rfl | hlk'
      · constructor
        · by_cases hdir : data.direction = FundFlow.FundDir.incoming <;>
            simp [hdir]
        · by_cases hdir : data.direction = FundFlow.FundDir.incoming <;>
            simp [hdir]
      · obtain ⟨hs, ht⟩ := ih (idx + 1) lk hlk'
        exact ⟨lift _ _ _ hs, lift _ _ _ ht⟩
    · rw [if_neg h] at hlk ⊢
      exact ih idx lk hlk

/-- Every material map entry has a key distinct from the developer address. -/
theorem emits_ne_dev (dev : String) (p : String × FundFlow.SrcRec)
    (h : FundFlow.emits dev p) : p.1 ≠ dev := by
  unfold FundFlow.emits at h
  simp only [Bool.and_eq_true, decide_eq_true_eq] at h
  exact h.2

/-- The ids of the detection-time node list (developer node first, then the
counterparty nodes) are pairwise distinct. -/
theorem primaryNodes_ids_nodup (dev : String)
    (txF : String → Option FundFlow.RawTx) (sigs : List FundFlow.SigInfo) :
    ((FundFlow.primaryNodes dev txF sigs).map FundFlow.FundFlowNode.id).Nodup := by
  unfold FundFlow.primaryNodes FundFlow.primaryBuilt
  rw [List.map_cons, buildPrimary_ids]
  refine List.nodup_cons.mpr ⟨?_, ?_⟩
  · intro hmem
    rw [List.mem_map] at hmem
    obtain ⟨p, hp, hpe⟩ := hmem
    exact emits_ne_dev dev p (List.mem_filter.mp hp).2 hpe
  · have hsub : ((FundFlow.processSignatures dev txF sigs).fundSources.filter
        (FundFlow.emits dev)).map Prod.fst |>.Sublist
        (FundFlow.aggKeys (FundFlow.processSignatures dev txF sigs)) :=
      (List.filter_sublist _).map Prod.fst
    refine hsub.nodup ?_
    rw [processSignatures_keys]
    exact nodup_firstDedupAux _ _

/-- C10: over every upstream payload — well-formed or malformed — the
fund-flow analysis never reports `Circular funding detected`: the aggregation
map keys counterparties uniquely, so no address can occur as both an
incoming- and an outgoing-direction node at detection time. -/
theorem C10_no_circular_pattern (dev : String) (sigRes : FundFlow.SigFetchResult)
    (txF : String → Option FundFlow.RawTx)
    (secF : String → List (FundFlow.SigInfo × Option FundFlow.RawTx)) :
    (FundFlow.analyzeFundFlows dev sigRes txF secF).suspiciousPatterns.contains
      "Circular funding detected" = false := by
  cases sigRes with
  | malformed => rfl
  | ok sigs =>
    have hnot : "Circular funding detected" ∉ FundFlow.primaryPatterns dev txF sigs := by
      unfold FundFlow.primaryPatterns
      rw [mem_detect_circular_iff]
      rintro ⟨n1, h1, n2, h2, hd1, _, hd2, _, hid⟩
      have hne : n1 ≠ n2 := by
        intro he
        rw [he, hd2] at hd1
        cases hd1
      exact hne (List.inj_on_of_nodup_map (primaryNodes_ids_nodup dev txF sigs)
        h1 h2 hid.symm)
    have hnot5 : "Circular funding detected" ∉
        (FundFlow.primaryPatterns dev txF sigs).take 5 :=
      fun hc => hnot (List.take_subset 5 _ hc)
    have hshape : (FundFlow.analyzeFundFlows dev (FundFlow.SigFetchResult.ok sigs)
        txF secF).suspiciousPatterns = (FundFlow.primaryPatterns dev txF sigs).take 5 :=
      rfl
    rw [hshape]
    cases hc : ((FundFlow.primaryPatterns dev txF sigs).take 5).contains
        "Circular funding detected"
    · rfl
    · exact absurd (List.mem_of_elem_eq_true hc) hnot5

/-- Appending one fresh node together with one link into it preserves the
secondary-expansion invariant. -/
theorem goodExt_append (primary : List FundFlow.FundFlowNode)
    (acc : List FundFlow.FundFlowNode × List FundFlow.FundFlowLink)
    (n0 : FundFlow.FundFlowNode) (l0 : FundFlow.FundFlowLink)
    (hg : GoodExt primary acc)
    (hid : n0.id ∉ acc.1.map FundFlow.FundFlowNode.id)
    (hs : l0.source = n0.id ∨ l0.source ∈ acc.1.map FundFlow.FundFlowNode.id)
    (ht : l0.target = n0.id ∨ l0.target ∈ acc.1.map FundFlow.FundFlowNode.id) :
    GoodExt primary (acc.1 ++ [n0], acc.2 ++ [l0]) := by
  obtain ⟨⟨ns, hacc1, hfresh⟩, hnodup, hlinks⟩ := hg
  have hids : ((acc.1 ++ [n0]).map FundFlow.FundFlowNode.id) =
      acc.1.map FundFlow.FundFlowNode.id ++ [n0.id] := by simp
  refine ⟨⟨ns ++ [n0], ?_, ?_⟩, ?_, ?_⟩
  · rw [hacc1, List.append_assoc]
  · intro n hn
    rcases List.mem_append.mp hn with hn' | hn'
    · exact hfresh n hn'
    · rcases List.mem_singleton.mp hn' with rfl
      intro hc
      refine hid ?_
      rw [hacc1, List.map_append]
      exact List.mem_append_left _ hc
  · rw [hids, List.nodup_append]
    refine ⟨hnodup, List.nodup_singleton _, ?_⟩
    intro x hx hx'
    rw [List.mem_singleton] at hx'
    subst hx'
    exact hid hx
  · intro lk hlk
    rcases List.mem_append.mp hlk with hlk' | hlk'
    · obtain ⟨h1, h2⟩ := hlinks lk hlk'
      rw [hids]
      exact ⟨List.mem_append_left _ h1, List.mem_append_left _ h2⟩
    · rcases List.mem_singleton.mp hlk' with rfl
      rw [hids]
      constructor
      · rcases hs with h | h
        · rw [h]
          exact List.mem_append_right _ (List.mem_singleton_self _)
        · exact List.mem_append_left _ h
      · rcases ht with h | h
        · rw [h]
          exact List.mem_append_right _ (List.mem_singleton_self _)
        · exact List.mem_append_left _ h

/-- Processing one batch of secondary flows preserves the secondary-expansion
invariant. -/
theorem secStep_goodExt (primary : List FundFlow.FundFlowNode) (sid : String) :
    ∀ (flows : List (ℕ × FundFlow.SecFlow))
      (acc : List FundFlow.FundFlowNode × List FundFlow.FundFlowLink),
    GoodExt primary acc → sid ∈ acc.1.map FundFlow.FundFlowNode.id →
    GoodExt primary (FundFlow.secStep sid acc flows) := by
  intro flows
  induction flows with
  | nil => intro acc hg _; exact hg
  | cons hd tl ih =>
    intro acc hg hsid
    obtain ⟨index, flow⟩ := hd
    simp only [FundFlow.secStep]
    by_cases hcond :
      (¬ (acc.1.any fun n => n.id = flow.address) ∧ index < 2)
    · rw [if_pos hcond]
      have hnewid : flow.address ∉ acc.1.map FundFlow.FundFlowNode.id := by
        intro hc
        rw [List.mem_map] at hc
        obtain ⟨n, hn, hne⟩ := hc
        exact hcond.1 (List.any_eq_true.mpr ⟨n, hn, by simp [hne]⟩)
      apply ih
      · refine goodExt_append primary acc _ _ hg hnewid ?_ ?_
        · by_cases hdir : flow.direction = FundFlow.FundDir.incoming
          · exact Or.inl (by simp [hdir])
          · refine Or.inr ?_
            simpa [hdir] using hsid
        · by_cases hdir : flow.direction = FundFlow.FundDir.incoming
          · refine Or.inr ?_
            simpa [hdir] using hsid
          · exact Or.inl (by simp [hdir])
      · simp only [List.map_append]
        exact List.mem_append_left _ hsid
    · rw [if_neg hcond]
      exact ih acc hg hsid

/-- The whole secondary expansion preserves the invariant, provided every
major source is a primary node id. -/
theorem addSecondary_goodExt (primary : List FundFlow.FundFlowNode)
    (secF : String → List (FundFlow.SigInfo × Option FundFlow.RawTx)) :
    ∀ (ms : List FundFlow.FundFlowNode)
      (acc : List FundFlow.FundFlowNode × List FundFlow.FundFlowLink),
    GoodExt primary acc →
    (∀ s ∈ ms, s.id ∈ primary.map FundFlow.FundFlowNode.id) →
    GoodExt primary (FundFlow.addSecondary secF ms acc) := by
  intro ms
  induction ms with
  | nil => intro acc hg _; exact hg
  | cons s rest ih =>
    intro acc hg hms
    unfold FundFlow.addSecondary at ih ⊢
    rw [List.foldl_cons]
    have hsid : s.id ∈ acc.1.map FundFlow.FundFlowNode.id := by
      obtain ⟨⟨ns, hacc1, _⟩, _, _⟩ := hg
      rw [hacc1, List.map_append]
      exact List.mem_append_left _ (hms s (List.mem_cons_self _ _))
    refine ih _ (secStep_goodExt primary s.id _ acc hg hsid) ?_
    · intro x hx
      exact hms x (List.mem_cons_of_mem _ hx)

/-- The detection-time node/link pair satisfies the invariant over itself. -/
theorem primary_goodExt (dev : String) (txF : String → Option FundFlow.RawTx)
    (sigs : List FundFlow.SigInfo) :
    GoodExt (FundFlow.primaryNodes dev txF sigs)
      (FundFlow.primaryNodes dev txF sigs,
       (FundFlow.primaryBuilt dev txF sigs).2.1) := by
  refine ⟨⟨[], by simp, by simp⟩, primaryNodes_ids_nodup dev txF sigs, ?_⟩
  intro lk hlk
  exact buildPrimary_links dev _ 1 lk hlk

/-- Every major source id is a primary node id. -/
theorem majorSources_sub (dev : String) (txF : String → Option FundFlow.RawTx)
    (sigs : List FundFlow.SigInfo) :
    ∀ s ∈ FundFlow.majorSources dev txF sigs,
      s.id ∈ (FundFlow.primaryNodes dev txF sigs).map FundFlow.FundFlowNode.id := by
  intro s hs
  unfold FundFlow.majorSources at hs
  exact List.mem_map_of_mem _
    (List.mem_of_mem_filter (List.take_subset _ _ hs))

/-- The pre-cap graph extends the primary graph and satisfies the
invariant. -/
theorem fullGraph_goodExt (dev : String) (txF : String → Option FundFlow.RawTx)
    (secF : String → List (FundFlow.SigInfo × Option FundFlow.RawTx))
    (sigs : List FundFlow.SigInfo) :
    GoodExt (FundFlow.primaryNodes dev txF sigs)
      (FundFlow.fundFlowFullGraph dev txF secF sigs) :=
  addSecondary_goodExt _ secF _ _ (primary_goodExt dev txF sigs)
    (majorSources_sub dev txF sigs)

/-- C3 amended: node ids are unique in every (capped) fund-flow result, and
every emitted link references node ids of the *pre-cap* graph; after the
truncation to 30 nodes while up to 50 links are kept, a kept link may
reference a dropped node (see the counterexample). -/
theorem C3_amended_unique_ids_precap_closure (dev : String)
    (sigRes : FundFlow.SigFetchResult) (txF : String → Option FundFlow.RawTx)
    (secF : String → List (FundFlow.SigInfo × Option FundFlow.RawTx)) :
    ((FundFlow.analyzeFundFlows dev sigRes txF secF).nodes.map
      FundFlow.FundFlowNode.id).Nodup ∧
    (∀ sigs, sigRes = FundFlow.SigFetchResult.ok sigs →
      ∀ lk ∈ (FundFlow.analyzeFundFlows dev sigRes txF secF).links,
        lk.source ∈ (FundFlow.fundFlowFullGraph dev txF secF sigs).1.map
          FundFlow.FundFlowNode.id ∧
        lk.target ∈ (FundFlow.fundFlowFullGraph dev txF secF sigs).1.map
          FundFlow.FundFlowNode.id) := by
  constructor
  · cases sigRes with
    | malformed => simp [FundFlow.analyzeFundFlows, FundFlow.analyzeFundFlowsBody,
        FundFlow.minimalFundFlowData]
    | ok sigs =>
      have hshape : (FundFlow.analyzeFundFlows dev (FundFlow.SigFetchResult.ok sigs)
          txF secF).nodes = (FundFlow.fundFlowFullGraph dev txF secF sigs).1.take 30 :=
        rfl
      rw [hshape, List.map_take]
      exact ((fullGraph_goodExt dev txF secF sigs).2.1).sublist
        (List.take_sublist _ _)
  · rintro sigs rfl lk hlk
    have hshape : (FundFlow.analyzeFundFlows dev (FundFlow.SigFetchResult.ok sigs)
        txF secF).links = (FundFlow.fundFlowFullGraph dev txF secF sigs).2.take 50 :=
      rfl
    rw [hshape] at hlk
    exact (fullGraph_goodExt dev txF secF sigs).2.2 lk (List.take_subset _ _ hlk)

/-- C3 witness: on the 31-counterparty scenario, the capped node ids are
unique and the first emitted link references pre-cap node ids. -/
theorem C3_witness :
    (bigResult.nodes.map FundFlow.FundFlowNode.id).Nodup ∧
    demoLink0.source ∈ bigFullNodes.map FundFlow.FundFlowNode.id ∧
    demoLink0.target ∈ bigFullNodes.map FundFlow.FundFlowNode.id :=
  ⟨(C3_amended_unique_ids_precap_closure "DEV"
      (FundFlow.SigFetchResult.ok [bigSig]) bigTxFetch noSecFetch).1,
   (C3_amended_unique_ids_precap_closure "DEV"
      (FundFlow.SigFetchResult.ok [bigSig]) bigTxFetch noSecFetch).2
      [bigSig] rfl demoLink0 (by decide)⟩

/-- C3 counterexample: with 31 material counterparties the capped result keeps
a link whose endpoint node was truncated away, so edges do not reference only
nodes present in the same capped result. -/
theorem C3_counterexample :
    ¬ ∀ lk ∈ bigResult.links,
        lk.source ∈ bigResult.nodes.map FundFlow.FundFlowNode.id ∧
        lk.target ∈ bigResult.nodes.map FundFlow.FundFlowNode.id := by
  decide

/-- Material counterparty ids differ from the developer address. -/
theorem mem_cIds_ne_dev (dev : String) (txF : String → Option FundFlow.RawTx)
    (sigs : List FundFlow.SigInfo) {a : String}
    (ha : a ∈ primaryCounterpartyIds dev txF sigs) : a ≠ dev := by
  unfold primaryCounterpartyIds at ha
  rw [List.mem_map] at ha
  obtain ⟨p, hp, rfl⟩ := ha
  exact emits_ne_dev dev p (List.mem_filter.mp hp).2

/-- The material counterparty ids form a sublist of the aggregation keys. -/
theorem cIds_sublist_keys (dev : String) (txF : String → Option FundFlow.RawTx)
    (sigs : List FundFlow.SigInfo) :
    (primaryCounterpartyIds dev txF sigs).Sublist
      (FundFlow.aggKeys (FundFlow.processSignatures dev txF sigs)) :=
  (List.filter_sublist _).map _

/-- The material counterparty ids are ordered by first occurrence in the
processed flow stream. -/
theorem cIds_pairwise (dev : String) (txF : String → Option FundFlow.RawTx)
    (sigs : List FundFlow.SigInfo) :
    (primaryCounterpartyIds dev txF sigs).Pairwise
      (fun a b => (flowAddrs dev txF sigs).indexOf a <
        (flowAddrs dev txF sigs).indexOf b) := by
  have hp : (FundFlow.aggKeys (FundFlow.processSignatures dev txF sigs)).Pairwise
      (fun a b => (flowAddrs dev txF sigs).indexOf a <
        (flowAddrs dev txF sigs).indexOf b) := by
    rw [processSignatures_keys]
    exact pairwise_firstDedupAux _ _
  exact hp.sublist (cIds_sublist_keys dev txF sigs)

/-- The detection-time node ids are the developer followed by the material
counterparty ids. -/
theorem primaryNodes_ids (dev : String) (txF : String → Option FundFlow.RawTx)
    (sigs : List FundFlow.SigInfo) :
    (FundFlow.primaryNodes dev txF sigs).map FundFlow.FundFlowNode.id =
      dev :: primaryCounterpartyIds dev txF sigs := by
  unfold FundFlow.primaryNodes FundFlow.primaryBuilt primaryCounterpartyIds
  rw [List.map_cons, buildPrimary_ids]
  rfl

/-- The pre-cap node ids decompose as developer, material counterparties (in
map order), then fresh secondary ids. -/
theorem full_ids_decomp (dev : String) (txF : String → Option FundFlow.RawTx)
    (secF : String → List (FundFlow.SigInfo × Option FundFlow.RawTx))
    (sigs : List FundFlow.SigInfo) :
    ∃ rest : List String,
      (FundFlow.fundFlowFullGraph dev txF secF sigs).1.map
        FundFlow.FundFlowNode.id =
        dev :: (primaryCounterpartyIds dev txF sigs ++ rest) ∧
      ∀ x ∈ rest, x ∉ dev :: primaryCounterpartyIds dev txF sigs := by
  obtain ⟨⟨ns, hfull, hfresh⟩, _, _⟩ := fullGraph_goodExt dev txF secF sigs
  refine ⟨ns.map FundFlow.FundFlowNode.id, ?_, ?_⟩
  · rw [hfull, List.map_append, primaryNodes_ids]
    rfl
  · intro x hx
    rw [List.mem_map] at hx
    obtain ⟨n, hn, rfl⟩ := hx
    have h := hfresh n hn
    rw [primaryNodes_ids] at h
    exact h

/-- Surviving the 30-cap behind the developer node means surviving a 29-cap of
the tail. -/
theorem mem_take30_cons {x d : String} {M : List String}
    (h : x ∈ (d :: M).take 30) (hne : x ≠ d) : x ∈ M.take 29 := by
  rw [show (30 : ℕ) = 29 + 1 from rfl, List.take_succ_cons] at h
  exact (List.mem_cons.mp h).resolve_left hne

/-- Being dropped by the 30-cap behind the developer node means being dropped
by a 29-cap of the tail. -/
theorem not_mem_take30_cons {x d : String} {M : List String}
    (h : x ∉ (d :: M).take 30) : x ∉ M.take 29 := by
  rw [show (30 : ℕ) = 29 + 1 from rfl, List.take_succ_cons] at h
  exact fun hc => h (List.mem_cons_of_mem _ hc)

/-- C4 amended: the node cap keeps the material counterparties in
aggregation-map insertion order — first seen in the flow stream, first kept —
not those of largest `totalAmount`: every kept counterparty first occurs in
the flow stream strictly before every dropped counterparty. -/
theorem C4_amended_truncation_is_first_seen_order (dev : String)
    (sigs : List FundFlow.SigInfo) (txF : String → Option FundFlow.RawTx)
    (secF : String → List (FundFlow.SigInfo × Option FundFlow.RawTx))
    (a b : String)
    (ha : a ∈ primaryCounterpartyIds dev txF sigs)
    (hb : b ∈ primaryCounterpartyIds dev txF sigs)
    (haKept : a ∈ (FundFlow.analyzeFundFlows dev (FundFlow.SigFetchResult.ok sigs)
      txF secF).nodes.map FundFlow.FundFlowNode.id)
    (hbDropped : b ∉ (FundFlow.analyzeFundFlows dev (FundFlow.SigFetchResult.ok sigs)
      txF secF).nodes.map FundFlow.FundFlowNode.id) :
    (flowAddrs dev txF sigs).indexOf a < (flowAddrs dev txF sigs).indexOf b := by
  obtain ⟨rest, hids, hfreshr⟩ := full_ids_decomp dev txF secF sigs
  have hshape : (FundFlow.analyzeFundFlows dev (FundFlow.SigFetchResult.ok sigs)
      txF secF).nodes.map FundFlow.FundFlowNode.id =
      ((FundFlow.fundFlowFullGraph dev txF secF sigs).1.map
        FundFlow.FundFlowNode.id).take 30 := by
    rw [← List.map_take]
    exact rfl
  rw [hshape, hids] at haKept hbDropped
  have ha' : a ∈ (primaryCounterpartyIds dev txF sigs ++ rest).take 29 :=
    mem_take30_cons haKept (mem_cIds_ne_dev dev txF sigs ha)
  have hb' : b ∉ (primaryCounterpartyIds dev txF sigs ++ rest).take 29 :=
    not_mem_take30_cons hbDropped
  by_cases hlen : (primaryCounterpartyIds dev txF sigs).length ≤ 29
  · exfalso
    apply hb'
    rw [List.take_append_eq_append_take, List.take_of_length_le hlen]
    exact List.mem_append_left _ hb
  · push_neg at hlen
    have hbM : b ∈ primaryCounterpartyIds dev txF sigs ++ rest :=
      List.mem_append_left _ hb
    rw [← List.take_append_drop 29
      (primaryCounterpartyIds dev txF sigs ++ rest)] at hbM
    have hbDrop : b ∈ (primaryCounterpartyIds dev txF sigs ++ rest).drop 29 :=
      (List.mem_append.mp hbM).resolve_left hb'
    have htake : (primaryCounterpartyIds dev txF sigs ++ rest).take 29 =
        (primaryCounterpartyIds dev txF sigs).take 29 := by
      rw [List.take_append_eq_append_take,
        show 29 - (primaryCounterpartyIds dev txF sigs).length = 0 from by omega,
        List.take_zero, List.append_nil]
    have hdrop : (primaryCounterpartyIds dev txF sigs ++ rest).drop 29 =
        (primaryCounterpartyIds dev txF sigs).drop 29 ++ rest := by
      rw [List.drop_append_eq_append_drop,
        show 29 - (primaryCounterpartyIds dev txF sigs).length = 0 from by omega,
        List.drop_zero]
    have ha'' : a ∈ (primaryCounterpartyIds dev txF sigs).take 29 := htake ▸ ha'
    have hb'' : b ∈ (primaryCounterpartyIds dev txF sigs).drop 29 := by
      rw [hdrop] at hbDrop
      rcases List.mem_append.mp hbDrop with h | h
      · exact h
      · exact absurd (List.mem_cons_of_mem _ hb) (hfreshr b h)
    have hpw : ((primaryCounterpartyIds dev txF sigs).take 29 ++
        (primaryCounterpartyIds dev txF sigs).drop 29).Pairwise
        (fun x y => (flowAddrs dev txF sigs).indexOf x <
          (flowAddrs dev txF sigs).indexOf y) := by
      rw [List.take_append_drop]
      exact cIds_pairwise dev txF sigs
    exact (List.pairwise_append.mp hpw).2.2 a ha'' b hb''

/-- C4 witness: in the 31-counterparty scenario, `C0` (kept) and `C30`
(dropped) satisfy the amended ordering statement. -/
theorem C4_witness :
    (flowAddrs "DEV" bigTxFetch [bigSig]).indexOf "C0" <
      (flowAddrs "DEV" bigTxFetch [bigSig]).indexOf "C30" :=
  C4_amended_truncation_is_first_seen_order "DEV" [bigSig] bigTxFetch noSecFetch
    "C0" "C30" (by decide) (by decide) (by decide) (by decide)

/-- C4 counterexample: in the 31-counterparty scenario the dropped node `C30`
has a far larger `totalAmount` than the kept material counterparties, so the
caps do not keep the largest-`totalAmount` entries. -/
theorem C4_counterexample :
    ¬ ∀ d ∈ bigFullNodes,
        d.id ∉ bigResult.nodes.map FundFlow.FundFlowNode.id →
        ∀ k ∈ bigResult.nodes, k.type ≠ "developer" → d.amount ≤ k.amount := by
  decide

end Spec2Proof
